import Mathlib

/-!
# OpenGLLab: the triangle program and the quadrilateral program

A shallow embedding of the two programs under `src/KeyCode/`:

* `绘制三角形.cpp` (namespace `Triangle`): draws one triangle with a VAO and a VBO;
* `绘制四边形方法二.cpp` (namespace `Quad`): draws a quadrilateral with a VAO, a VBO and
  an EBO.

Each `main` is a straight line of calls into GLFW, GLAD and OpenGL followed by the
frame loop.  The embedding keeps the calls in source order: a program is a state
transformer over a `Log` (the calls issued so far and the messages written to
`std::cout`), and everything the outside world answers is read from an `Outcome`.
The frame loop runs on fuel; a run whose window is never closed within the fuel
returns `none`.  How a run ends for the process is `Quad.exit` and `Triangle.exit`:
a run that calls a `gl*` function after the function loader failed is undefined.
Float literals are exact rationals: the vertex data (`0.5f`, `0.0f`) and `1.0` are
exactly representable and the programs do no arithmetic on them; the clear colour and
the fragment colour stand for the decimals written in the source.
-/

set_option autoImplicit false

/-! ## Names the programs take from the GLFW and OpenGL headers -/

/-- GLFW macro names that occur in the sources, together with `GLFW_OPENGL_PROFILE`,
the hint that selects the context profile. -/
inductive GlfwName where
  | GLFW_CONTEXT_VERSION_MAJOR
  | GLFW_CONTEXT_VERSION_MINOR
  | GLFW_OPENGL_PROFILE
  | GLFW_OPENGL_ANY_PROFILE
  | GLFW_OPENGL_CORE_PROFILE
  | GLFW_RESIZABLE
  | GLFW_RELEASE
  deriving DecidableEq

/-- The integer each macro expands to in `GLFW/glfw3.h` (GLFW 3.x). -/
def GlfwName.value : GlfwName → Int
  | .GLFW_CONTEXT_VERSION_MAJOR => 0x00022002
  | .GLFW_CONTEXT_VERSION_MINOR => 0x00022003
  | .GLFW_OPENGL_PROFILE => 0x00022008
  | .GLFW_OPENGL_ANY_PROFILE => 0
  | .GLFW_OPENGL_CORE_PROFILE => 0x00032001
  | .GLFW_RESIZABLE => 0x00020003
  | .GLFW_RELEASE => 0

/-- The second argument of `glfwWindowHint` as it is written in the source. -/
inductive HintValue where
  | int (n : Int)
  | const (c : GlfwName)
  | bool (b : Bool)
  deriving DecidableEq

/-- The `int` that reaches `glfwWindowHint` for a written argument. -/
def HintValue.value : HintValue → Int
  | .int n => n
  | .const c => c.value
  | .bool b => if b then 1 else 0

/-- OpenGL enumerants that occur in the sources. -/
inductive GLenum where
  | GL_ARRAY_BUFFER
  | GL_ELEMENT_ARRAY_BUFFER
  | GL_STATIC_DRAW
  | GL_FLOAT
  | GL_UNSIGNED_INT
  | GL_TRIANGLES
  | GL_VERTEX_SHADER
  | GL_FRAGMENT_SHADER
  | GL_COMPILE_STATUS
  | GL_LINK_STATUS
  | GL_COLOR_BUFFER_BIT
  deriving DecidableEq

/-- Size in bytes of a `float`. -/
def sizeof_float : Nat := 4

/-- Size in bytes of an `unsigned int`. -/
def sizeof_unsigned_int : Nat := 4

/-- The client memory handed to `glBufferData`. -/
inductive BufferData where
  | floats (xs : List ℚ)
  | uints (xs : List Nat)
  deriving DecidableEq

/-- What `sizeof` gives for an array holding the data. -/
def BufferData.sizeof : BufferData → Nat
  | .floats xs => xs.length * sizeof_float
  | .uints xs => xs.length * sizeof_unsigned_int

/-! ## Geometry data -/

namespace Quad

/-- Array `vertices` of the quadrilateral program. -/
def vertices : List ℚ := [
  0.5, 0.5, 0.0,
  0.5, -0.5, 0.0,
  -0.5, -0.5, 0.0,
  -0.5, 0.5, 0.0]

/-- Array `indices` of the quadrilateral program. -/
def indices : List Nat := [
  0, 1, 3,
  1, 2, 3]

def screen_width : Int := 1280

def screen_height : Int := 720

end Quad

namespace Triangle

/-- Array `triangle` of the triangle program. -/
def triangle : List ℚ := [
  -0.5, -0.5, 0.0,
  0.5, -0.5, 0.0,
  0.0, 0.5, 0.0]

def screen_width : Int := 1280

def screen_height : Int := 720

end Triangle

/-! ## Reading a vertex array as positions and triangles -/

/-- Number of complete 3-component positions in a float array. -/
def vertexCount (vs : List ℚ) : Nat := vs.length / 3

/-- The x and y components of vertex `i` of a tightly packed 3-component array. -/
def position2 (vs : List ℚ) (i : Nat) : ℚ × ℚ :=
  (vs.getD (3 * i) 0, vs.getD (3 * i + 1) 0)

/-- The three components of vertex `i`. -/
def position3 (vs : List ℚ) (i : Nat) : ℚ × ℚ × ℚ :=
  (vs.getD (3 * i) 0, vs.getD (3 * i + 1) 0, vs.getD (3 * i + 2) 0)

/-- An index list read as a triangle list: consecutive groups of three. -/
def triangleList : List Nat → List (Nat × Nat × Nat)
  | a :: b :: c :: rest => (a, b, c) :: triangleList rest
  | _ => []

/-- The 2D cross product of the edge vectors `q - p` and `r - p`. -/
def cross2 (p q r : ℚ × ℚ) : ℚ :=
  (q.1 - p.1) * (r.2 - p.2) - (q.2 - p.2) * (r.1 - p.1)

/-- Area of the triangle with corner indices `t` over the vertex array `vs`. -/
def triangleArea (vs : List ℚ) (t : Nat × Nat × Nat) : ℚ :=
  |cross2 (position2 vs t.1) (position2 vs t.2.1) (position2 vs t.2.2)| / 2

/-- The x components of all vertices. -/
def xs (vs : List ℚ) : List ℚ := (List.range (vertexCount vs)).map fun i => (position2 vs i).1

/-- The y components of all vertices. -/
def ys (vs : List ℚ) : List ℚ := (List.range (vertexCount vs)).map fun i => (position2 vs i).2

/-- Largest minus smallest entry of a list (0 for the empty list). -/
def extent : List ℚ → ℚ
  | [] => 0
  | c :: cs => (c :: cs).foldl max c - (c :: cs).foldl min c

/-- Width of the axis-aligned rectangle spanned by the vertices. -/
def spanWidth (vs : List ℚ) : ℚ := extent (xs vs)

/-- Height of the axis-aligned rectangle spanned by the vertices. -/
def spanHeight (vs : List ℚ) : ℚ := extent (ys vs)

/-! ## The shaders -/

/-- The GLSL constructor `vec4(vec3, float)`. -/
def vec4 {α : Type} (v : α × α × α) (w : α) : α × α × α × α := (v.1, v.2.1, v.2.2, w)

/-- Body of `vertex_shader_source` (the same statement in both programs):
`gl_Position = vec4(aPos, 1.0);`. -/
def vertex_shader_main {α : Type} [One α] (aPos : α × α × α) : α × α × α × α :=
  vec4 aPos 1

/-- Body of `fragment_shader_source`: `FragColor = vec4(1.0f, 0.5f, 0.2f, 1.0f);`. -/
def fragment_shader_main : ℚ × ℚ × ℚ × ℚ := (1.0, 0.5, 0.2, 1.0)

/-! ## Calls, outcomes and the log -/

/-- Which source string is handed to `glShaderSource`. -/
inductive ShaderSource where
  | vertex_shader_source
  | fragment_shader_source
  deriving DecidableEq

/-- One call into GLFW, GLAD or OpenGL, with the arguments the programs pass.  Handles
are the `GLuint` values the library returned; the window argument, the same in every
call that takes one, is left out.  `glfwWindowShouldClose` carries its answer.
`glDeleteProgram` belongs to the interface, though neither program calls it. -/
inductive Call where
  | glfwInit
  | glfwWindowHint (hint : GlfwName) (value : HintValue)
  | glfwCreateWindow (width height : Int) (title : String)
  | glfwTerminate
  | glfwMakeContextCurrent
  | gladLoadGLLoader
  | glViewport (x y width height : Int)
  | glGenVertexArrays (n : Nat)
  | glGenBuffers (n : Nat)
  | glBindVertexArray (array : Nat)
  | glBindBuffer (target : GLenum) (buffer : Nat)
  | glBufferData (target : GLenum) (size : Nat) (data : BufferData) (usage : GLenum)
  | glVertexAttribPointer (index size : Nat) (kind : GLenum) (normalized : Bool)
      (stride pointer : Nat)
  | glEnableVertexAttribArray (index : Nat)
  | glCreateShader (kind : GLenum)
  | glShaderSource (shader count : Nat) (source : ShaderSource)
  | glCompileShader (shader : Nat)
  | glGetShaderiv (shader : Nat) (pname : GLenum)
  | glGetShaderInfoLog (shader bufSize : Nat)
  | glCreateProgram
  | glAttachShader (program shader : Nat)
  | glLinkProgram (program : Nat)
  | glGetProgramiv (program : Nat) (pname : GLenum)
  | glGetProgramInfoLog (program bufSize : Nat)
  | glDeleteShader (shader : Nat)
  | glDeleteProgram (program : Nat)
  | glfwWindowShouldClose (answer : Bool)
  | glClearColor (red green blue alpha : ℚ)
  | glClear (mask : GLenum)
  | glUseProgram (program : Nat)
  | glDrawArrays (mode : GLenum) (first count : Nat)
  | glDrawElements (mode : GLenum) (count : Nat) (kind : GLenum) (indices : Nat)
  | glfwSwapBuffers
  | glfwPollEvents
  | glDeleteVertexArrays (n array : Nat)
  | glDeleteBuffers (n buffer : Nat)
  deriving DecidableEq

/-- Everything the outside world answers during one run. -/
structure Outcome where
  /-- Whether `glfwInit()` returned non-zero. -/
  glfwInit : Bool
  /-- Whether `glfwCreateWindow` returned a non-null window. -/
  window : Bool
  /-- Whether `gladLoadGLLoader` returned non-zero. -/
  gladLoadGLLoader : Bool
  /-- Name written by `glGenVertexArrays` (`VAO`, `vertex_array_object`). -/
  VAO : Nat
  /-- Name written by the first `glGenBuffers` (`VBO`, `vertex_buffer_object`). -/
  VBO : Nat
  /-- Name written by the second `glGenBuffers` of the quadrilateral program. -/
  EBO : Nat
  vertex_shader : Nat
  fragment_shader : Nat
  shader_program : Nat
  /-- Whether `success` is non-zero after `glGetShaderiv(vertex_shader, GL_COMPILE_STATUS, ..)`. -/
  vertex_success : Bool
  /-- Whether `success` is non-zero after `glGetShaderiv(fragment_shader, ..)`. -/
  fragment_success : Bool
  /-- Whether `success` is non-zero after `glGetProgramiv(shader_program, GL_LINK_STATUS, ..)`. -/
  link_success : Bool
  /-- Info log the device holds for the vertex shader. -/
  vertex_log : List Char
  fragment_log : List Char
  program_log : List Char
  /-- Answer of the `k`-th `glfwWindowShouldClose` query (0-based). -/
  shouldClose : Nat → Bool

/-- The calls issued so far and the messages written to `std::cout`, oldest first. -/
structure Log where
  calls : List Call
  out : List String

/-- Issue one call. -/
def call (c : Call) : StateM Log Unit :=
  modify fun l => { l with calls := l.calls ++ [c] }

/-- One `std::cout << ... << std::endl` statement. -/
def cout (s : String) : StateM Log Unit :=
  modify fun l => { l with out := l.out ++ [s ++ "\n"] }

/-- What `char info_log[512]` holds as a C string after a
`glGet*InfoLog(.., 512, nullptr, info_log)`: at most 511 characters of the log, then
the terminator. -/
def info_log (bufSize : Nat) (log : List Char) : String :=
  String.mk (log.take (bufSize - 1))

/-! ## Shader program build (the same statements in both programs) -/

/-- Lines 100-139 of the quadrilateral program, 97-137 of the triangle program. -/
def shaderProgramBuild (o : Outcome) : StateM Log Unit := do
  call (.glCreateShader .GL_VERTEX_SHADER)
  call (.glShaderSource o.vertex_shader 1 .vertex_shader_source)
  call (.glCompileShader o.vertex_shader)
  call (.glGetShaderiv o.vertex_shader .GL_COMPILE_STATUS)
  if !o.vertex_success then
    call (.glGetShaderInfoLog o.vertex_shader 512)
    cout ("ERROR::SHADER::VERTEX::COMPILATION_FAILED\n" ++ info_log 512 o.vertex_log)
  call (.glCreateShader .GL_FRAGMENT_SHADER)
  call (.glShaderSource o.fragment_shader 1 .fragment_shader_source)
  call (.glCompileShader o.fragment_shader)
  call (.glGetShaderiv o.fragment_shader .GL_COMPILE_STATUS)
  if !o.fragment_success then
    call (.glGetShaderInfoLog o.fragment_shader 512)
    cout ("ERROR::SHADER::FRAGMENT::COMPILATION_FAILED\n" ++ info_log 512 o.fragment_log)
  call .glCreateProgram
  call (.glAttachShader o.shader_program o.vertex_shader)
  call (.glAttachShader o.shader_program o.fragment_shader)
  call (.glLinkProgram o.shader_program)
  call (.glGetProgramiv o.shader_program .GL_LINK_STATUS)
  if !o.link_success then
    call (.glGetProgramInfoLog o.shader_program 512)
    cout ("ERROR::SHADER::PROGRAM::LINKING_FAILED\n" ++ info_log 512 o.program_log)
  call (.glDeleteShader o.vertex_shader)
  call (.glDeleteShader o.fragment_shader)

/-! ## The quadrilateral program -/

namespace Quad

/-- Body of the `while` loop. -/
def frame (o : Outcome) : StateM Log Unit := do
  call (.glClearColor 0.0 0.34 0.57 1.0)
  call (.glClear .GL_COLOR_BUFFER_BIT)
  call (.glUseProgram o.shader_program)
  call (.glBindVertexArray o.VAO)
  call (.glDrawElements .GL_TRIANGLES 6 .GL_UNSIGNED_INT 0)
  call (.glBindVertexArray 0)
  call .glfwSwapBuffers
  call .glfwPollEvents

/-- The loop `while (!glfwWindowShouldClose(window)) { ... }`, `k` queries already
answered.  Returns `true` when the loop was left, `false` when the fuel ran out with
the window still open. -/
def frameLoop (o : Outcome) : Nat → Nat → StateM Log Bool
  | 0, _ => pure false
  | fuel + 1, k => do
    call (.glfwWindowShouldClose (o.shouldClose k))
    if o.shouldClose k then
      return true
    frame o
    frameLoop o fuel (k + 1)

/-- Function `main` of the quadrilateral program: the calls and messages the source issues,
in order, and the status its control flow reaches, or `none` when the fuel ran out
inside the frame loop.  The `gl*` calls are logged as the source writes them; after a
failed `gladLoadGLLoader` they go through pointers that were never loaded, and
`Quad.exit` reports such a run as undefined, not as returning. -/
def main (o : Outcome) (fuel : Nat) : StateM Log (Option Int) := do
  call .glfwInit
  if !o.glfwInit then
    return some (-1)
  call (.glfwWindowHint .GLFW_CONTEXT_VERSION_MAJOR (.int 3))
  call (.glfwWindowHint .GLFW_CONTEXT_VERSION_MINOR (.int 3))
  call (.glfwWindowHint .GLFW_OPENGL_ANY_PROFILE (.const .GLFW_OPENGL_CORE_PROFILE))
  call (.glfwWindowHint .GLFW_RELEASE (.bool false))
  call (.glfwCreateWindow screen_width screen_height "Quadrilateral")
  if !o.window then
    cout "Failed to Create OpenGL Context"
    call .glfwTerminate
    return some (-1)
  call .glfwMakeContextCurrent
  call .gladLoadGLLoader
  if !o.gladLoadGLLoader then
    cout "Failed to initialize GLAD"
  call (.glViewport 0 0 screen_width screen_height)
  call (.glGenVertexArrays 1)
  call (.glGenBuffers 1)
  call (.glGenBuffers 1)
  call (.glBindVertexArray o.VAO)
  call (.glBindBuffer .GL_ARRAY_BUFFER o.VBO)
  call (.glBufferData .GL_ARRAY_BUFFER (BufferData.floats vertices).sizeof
    (.floats vertices) .GL_STATIC_DRAW)
  call (.glBindBuffer .GL_ELEMENT_ARRAY_BUFFER o.EBO)
  call (.glBufferData .GL_ELEMENT_ARRAY_BUFFER (BufferData.uints indices).sizeof
    (.uints indices) .GL_STATIC_DRAW)
  call (.glVertexAttribPointer 0 3 .GL_FLOAT false (3 * sizeof_float) 0)
  call (.glEnableVertexAttribArray 0)
  call (.glBindBuffer .GL_ARRAY_BUFFER 0)
  call (.glBindVertexArray 0)
  shaderProgramBuild o
  let closed ← frameLoop o fuel 0
  if !closed then
    return none
  call (.glDeleteVertexArrays 1 o.VAO)
  call (.glDeleteBuffers 1 o.VBO)
  call (.glDeleteBuffers 1 o.EBO)
  call .glfwTerminate
  return some 0

/-- One run from the empty log. -/
def run (o : Outcome) (fuel : Nat) : Option Int × Log :=
  (main o fuel).run { calls := [], out := [] }

end Quad

/-! ## The triangle program -/

namespace Triangle

/-- Body of the `while` loop. -/
def frame (o : Outcome) : StateM Log Unit := do
  call (.glClearColor 0.0 0.34 0.57 1.0)
  call (.glClear .GL_COLOR_BUFFER_BIT)
  call (.glUseProgram o.shader_program)
  call (.glBindVertexArray o.VAO)
  call (.glDrawArrays .GL_TRIANGLES 0 3)
  call (.glBindVertexArray 0)
  call .glfwSwapBuffers
  call .glfwPollEvents

/-- The loop `while (!glfwWindowShouldClose(window)) { ... }`, `k` queries already
answered.  Returns `true` when the loop was left, `false` when the fuel ran out with
the window still open. -/
def frameLoop (o : Outcome) : Nat → Nat → StateM Log Bool
  | 0, _ => pure false
  | fuel + 1, k => do
    call (.glfwWindowShouldClose (o.shouldClose k))
    if o.shouldClose k then
      return true
    frame o
    frameLoop o fuel (k + 1)

/-- Function `main` of the triangle program: the calls and messages the source issues,
in order, and the status its control flow reaches, or `none` when the fuel ran out
inside the frame loop.  The `gl*` calls are logged as the source writes them; after a
failed `gladLoadGLLoader` they go through pointers that were never loaded, and
`Triangle.exit` reports such a run as undefined, not as returning. -/
def main (o : Outcome) (fuel : Nat) : StateM Log (Option Int) := do
  call .glfwInit
  if !o.glfwInit then
    return some (-1)
  call (.glfwWindowHint .GLFW_CONTEXT_VERSION_MAJOR (.int 3))
  call (.glfwWindowHint .GLFW_CONTEXT_VERSION_MINOR (.int 3))
  call (.glfwWindowHint .GLFW_OPENGL_ANY_PROFILE (.const .GLFW_OPENGL_CORE_PROFILE))
  call (.glfwWindowHint .GLFW_RESIZABLE (.bool false))
  call (.glfwCreateWindow screen_width screen_height "Quadrilateral")
  if !o.window then
    cout "Failed to Create OpenGL Context"
    call .glfwTerminate
    return some (-1)
  call .glfwMakeContextCurrent
  call .gladLoadGLLoader
  if !o.gladLoadGLLoader then
    cout "Failed to initialize GLAD"
  call (.glViewport 0 0 screen_width screen_height)
  call (.glGenVertexArrays 1)
  call (.glBindVertexArray o.VAO)
  call (.glGenBuffers 1)
  call (.glBindBuffer .GL_ARRAY_BUFFER o.VBO)
  call (.glBufferData .GL_ARRAY_BUFFER (BufferData.floats triangle).sizeof
    (.floats triangle) .GL_STATIC_DRAW)
  call (.glVertexAttribPointer 0 3 .GL_FLOAT false (3 * sizeof_float) 0)
  call (.glEnableVertexAttribArray 0)
  call (.glBindBuffer .GL_ARRAY_BUFFER 0)
  call (.glBindVertexArray 0)
  shaderProgramBuild o
  let closed ← frameLoop o fuel 0
  if !closed then
    return none
  call (.glDeleteVertexArrays 1 o.VAO)
  call (.glDeleteBuffers 1 o.VBO)
  call .glfwTerminate
  return some 0

/-- One run from the empty log. -/
def run (o : Outcome) (fuel : Nat) : Option Int × Log :=
  (main o fuel).run { calls := [], out := [] }

end Triangle

/-! ## Describing the log of a run -/

namespace Quad

/-- The calls of one pass through the loop body. -/
def frameCalls (o : Outcome) : List Call :=
  [.glClearColor 0.0 0.34 0.57 1.0, .glClear .GL_COLOR_BUFFER_BIT,
   .glUseProgram o.shader_program, .glBindVertexArray o.VAO,
   .glDrawElements .GL_TRIANGLES 6 .GL_UNSIGNED_INT 0, .glBindVertexArray 0,
   .glfwSwapBuffers, .glfwPollEvents]

end Quad

/-- The calls of `n` loop iterations: a should-close query answered "no", then the
calls of the loop body. -/
def iterations (body : List Call) : Nat → List Call
  | 0 => []
  | n + 1 => .glfwWindowShouldClose false :: body ++ iterations body n

/-- The calls of the shader program build. -/
def shaderCalls (o : Outcome) : List Call :=
  [.glCreateShader .GL_VERTEX_SHADER, .glShaderSource o.vertex_shader 1 .vertex_shader_source,
   .glCompileShader o.vertex_shader, .glGetShaderiv o.vertex_shader .GL_COMPILE_STATUS] ++
  (if o.vertex_success then [] else [.glGetShaderInfoLog o.vertex_shader 512]) ++
  [.glCreateShader .GL_FRAGMENT_SHADER,
   .glShaderSource o.fragment_shader 1 .fragment_shader_source,
   .glCompileShader o.fragment_shader, .glGetShaderiv o.fragment_shader .GL_COMPILE_STATUS] ++
  (if o.fragment_success then [] else [.glGetShaderInfoLog o.fragment_shader 512]) ++
  [.glCreateProgram, .glAttachShader o.shader_program o.vertex_shader,
   .glAttachShader o.shader_program o.fragment_shader, .glLinkProgram o.shader_program,
   .glGetProgramiv o.shader_program .GL_LINK_STATUS] ++
  (if o.link_success then [] else [.glGetProgramInfoLog o.shader_program 512]) ++
  [.glDeleteShader o.vertex_shader, .glDeleteShader o.fragment_shader]

/-- The messages of the shader program build. -/
def shaderOut (o : Outcome) : List String :=
  (if o.vertex_success then []
    else ["ERROR::SHADER::VERTEX::COMPILATION_FAILED\n" ++ info_log 512 o.vertex_log ++ "\n"]) ++
  (if o.fragment_success then []
    else ["ERROR::SHADER::FRAGMENT::COMPILATION_FAILED\n" ++ info_log 512 o.fragment_log ++ "\n"]) ++
  (if o.link_success then []
    else ["ERROR::SHADER::PROGRAM::LINKING_FAILED\n" ++ info_log 512 o.program_log ++ "\n"])

/-- The close flag is first observed at query `n`. -/
def FirstCloseAt (o : Outcome) (n : Nat) : Prop :=
  (∀ j, j < n → o.shouldClose j = false) ∧ o.shouldClose n = true

namespace Quad

/-- The window hints, in source order. -/
def hintCalls : List Call :=
  [.glfwWindowHint .GLFW_CONTEXT_VERSION_MAJOR (.int 3),
   .glfwWindowHint .GLFW_CONTEXT_VERSION_MINOR (.int 3),
   .glfwWindowHint .GLFW_OPENGL_ANY_PROFILE (.const .GLFW_OPENGL_CORE_PROFILE),
   .glfwWindowHint .GLFW_RELEASE (.bool false)]

/-- Calls up to and including window creation. -/
def bootstrapCalls : List Call :=
  .glfwInit :: hintCalls ++ [.glfwCreateWindow 1280 720 "Quadrilateral"]

/-- Calls of the geometry upload. -/
def uploadCalls (o : Outcome) : List Call :=
  [.glGenVertexArrays 1, .glGenBuffers 1, .glGenBuffers 1, .glBindVertexArray o.VAO,
   .glBindBuffer .GL_ARRAY_BUFFER o.VBO,
   .glBufferData .GL_ARRAY_BUFFER 48 (.floats vertices) .GL_STATIC_DRAW,
   .glBindBuffer .GL_ELEMENT_ARRAY_BUFFER o.EBO,
   .glBufferData .GL_ELEMENT_ARRAY_BUFFER 24 (.uints indices) .GL_STATIC_DRAW,
   .glVertexAttribPointer 0 3 .GL_FLOAT false 12 0, .glEnableVertexAttribArray 0,
   .glBindBuffer .GL_ARRAY_BUFFER 0, .glBindVertexArray 0]

/-- Every call before the frame loop, when the window was created. -/
def setupCalls (o : Outcome) : List Call :=
  bootstrapCalls ++ [.glfwMakeContextCurrent, .gladLoadGLLoader, .glViewport 0 0 1280 720] ++
    uploadCalls o ++ shaderCalls o

/-- Every message before the frame loop, when the window was created. -/
def setupOut (o : Outcome) : List String :=
  (if o.gladLoadGLLoader then [] else ["Failed to initialize GLAD\n"]) ++ shaderOut o

/-- Calls after the frame loop. -/
def teardownCalls (o : Outcome) : List Call :=
  [.glDeleteVertexArrays 1 o.VAO, .glDeleteBuffers 1 o.VBO, .glDeleteBuffers 1 o.EBO,
   .glfwTerminate]

end Quad

namespace Triangle

/-- The calls of one pass through the loop body. -/
def frameCalls (o : Outcome) : List Call :=
  [.glClearColor 0.0 0.34 0.57 1.0, .glClear .GL_COLOR_BUFFER_BIT,
   .glUseProgram o.shader_program, .glBindVertexArray o.VAO,
   .glDrawArrays .GL_TRIANGLES 0 3, .glBindVertexArray 0,
   .glfwSwapBuffers, .glfwPollEvents]

/-- The window hints, in source order. -/
def hintCalls : List Call :=
  [.glfwWindowHint .GLFW_CONTEXT_VERSION_MAJOR (.int 3),
   .glfwWindowHint .GLFW_CONTEXT_VERSION_MINOR (.int 3),
   .glfwWindowHint .GLFW_OPENGL_ANY_PROFILE (.const .GLFW_OPENGL_CORE_PROFILE),
   .glfwWindowHint .GLFW_RESIZABLE (.bool false)]

/-- Calls up to and including window creation. -/
def bootstrapCalls : List Call :=
  .glfwInit :: hintCalls ++ [.glfwCreateWindow 1280 720 "Quadrilateral"]

/-- Calls of the geometry upload. -/
def uploadCalls (o : Outcome) : List Call :=
  [.glGenVertexArrays 1, .glBindVertexArray o.VAO, .glGenBuffers 1,
   .glBindBuffer .GL_ARRAY_BUFFER o.VBO,
   .glBufferData .GL_ARRAY_BUFFER 36 (.floats triangle) .GL_STATIC_DRAW,
   .glVertexAttribPointer 0 3 .GL_FLOAT false 12 0, .glEnableVertexAttribArray 0,
   .glBindBuffer .GL_ARRAY_BUFFER 0, .glBindVertexArray 0]

/-- Every call before the frame loop, when the window was created. -/
def setupCalls (o : Outcome) : List Call :=
  bootstrapCalls ++ [.glfwMakeContextCurrent, .gladLoadGLLoader, .glViewport 0 0 1280 720] ++
    uploadCalls o ++ shaderCalls o

/-- Every message before the frame loop, when the window was created. -/
def setupOut (o : Outcome) : List String :=
  (if o.gladLoadGLLoader then [] else ["Failed to initialize GLAD\n"]) ++ shaderOut o

/-- Calls after the frame loop. -/
def teardownCalls (o : Outcome) : List Call :=
  [.glDeleteVertexArrays 1 o.VAO, .glDeleteBuffers 1 o.VBO, .glfwTerminate]

end Triangle

/-! ## Reading a log -/

/-- A draw call. -/
def Call.isDraw : Call → Bool
  | .glDrawArrays .. => true
  | .glDrawElements .. => true
  | _ => false

/-- A call of the graphics device interface (the `gl*` functions), as opposed to the
windowing library (`glfw*`) and the function loader. -/
def Call.isDevice : Call → Bool
  | .glfwInit => false
  | .glfwWindowHint .. => false
  | .glfwCreateWindow .. => false
  | .glfwTerminate => false
  | .glfwMakeContextCurrent => false
  | .gladLoadGLLoader => false
  | .glfwWindowShouldClose .. => false
  | .glfwSwapBuffers => false
  | .glfwPollEvents => false
  | _ => true

/-- An info-log query. -/
def Call.isInfoLog : Call → Bool
  | .glGetShaderInfoLog .. => true
  | .glGetProgramInfoLog .. => true
  | _ => false

/-- A call that releases something: a vertex array, a buffer, or the windowing
library. -/
def Call.isRelease : Call → Bool
  | .glDeleteVertexArrays .. => true
  | .glDeleteBuffers .. => true
  | .glfwTerminate => true
  | _ => false

/-- A call that creates vertex-array or buffer names. -/
def Call.isGen : Call → Bool
  | .glGenVertexArrays .. => true
  | .glGenBuffers .. => true
  | _ => false

/-- A call that deletes a shader object or a program. -/
def Call.isShaderDelete : Call → Bool
  | .glDeleteShader .. => true
  | .glDeleteProgram .. => true
  | _ => false

/-- The hint and value of a `glfwWindowHint` call. -/
def Call.hint? : Call → Option (GlfwName × HintValue)
  | .glfwWindowHint hint value => some (hint, value)
  | _ => none

/-- The window hints a log contains, in order. -/
def windowHints (cs : List Call) : List (GlfwName × HintValue) := cs.filterMap Call.hint?

/-- An outcome in which everything succeeds and the window is closed after two
frames. -/
def sampleOutcome : Outcome :=
  { glfwInit := true, window := true, gladLoadGLLoader := true, VAO := 1, VBO := 1, EBO := 2,
    vertex_shader := 1, fragment_shader := 2, shader_program := 3,
    vertex_success := true, fragment_success := true, link_success := true,
    vertex_log := [], fragment_log := [], program_log := [],
    shouldClose := fun k => decide (2 ≤ k) }

/-- A should-close query that was answered "yes". -/
def Call.isCloseObserved : Call → Bool
  | .glfwWindowShouldClose true => true
  | _ => false

/-- A buffer swap. -/
def Call.isSwap : Call → Bool
  | .glfwSwapBuffers => true
  | _ => false

/-- A call that sets an attribute pointer. -/
def Call.isAttribPointer : Call → Bool
  | .glVertexAttribPointer .. => true
  | _ => false

/-- The same outcome with every shader stage reporting success. -/
def Outcome.allSucceed (o : Outcome) : Outcome :=
  { o with vertex_success := true, fragment_success := true, link_success := true }

/-- A call other than an info-log query. -/
def Call.notInfoLog (c : Call) : Bool := !c.isInfoLog

/-- The sample outcome with the vertex shader failing to compile. -/
def vertexFailOutcome : Outcome := { sampleOutcome with vertex_success := false }

/-- The shader program build up to the two `glAttachShader` calls. -/
def shaderCallsBeforeLink (o : Outcome) : List Call :=
  [.glCreateShader .GL_VERTEX_SHADER, .glShaderSource o.vertex_shader 1 .vertex_shader_source,
   .glCompileShader o.vertex_shader, .glGetShaderiv o.vertex_shader .GL_COMPILE_STATUS] ++
  (if o.vertex_success then [] else [.glGetShaderInfoLog o.vertex_shader 512]) ++
  [.glCreateShader .GL_FRAGMENT_SHADER,
   .glShaderSource o.fragment_shader 1 .fragment_shader_source,
   .glCompileShader o.fragment_shader, .glGetShaderiv o.fragment_shader .GL_COMPILE_STATUS] ++
  (if o.fragment_success then [] else [.glGetShaderInfoLog o.fragment_shader 512]) ++
  [.glCreateProgram, .glAttachShader o.shader_program o.vertex_shader,
   .glAttachShader o.shader_program o.fragment_shader]

/-! ## How a run ends -/

/-- How a run ends. -/
inductive Exit where
  /-- Function `main` returned with this status. -/
  | returned (status : Int)
  /-- The fuel ran out with the window still open. -/
  | running
  /-- A `gl*` function was called through a pointer that the failed loader left
  unloaded: from there on the source does not determine what happens. -/
  | undefined
  deriving DecidableEq

/-- The `gl*` functions are GLAD function pointers, and `gladLoadGLLoader` is what
loads them (the source comment on that call).  A log has undefined behaviour when the
loader failed and a graphics-device call is issued nevertheless. -/
def undefinedBehaviour (o : Outcome) (l : Log) : Bool :=
  !o.gladLoadGLLoader && l.calls.any Call.isDevice

/-- How a run ends, given what `main` computed: undefined when a device call went
through an unloaded pointer, otherwise the status `main` returned, if it returned. -/
def exitOf (o : Outcome) (r : Option Int × Log) : Exit :=
  if undefinedBehaviour o r.2 then .undefined
  else match r.1 with
    | some status => .returned status
    | none => .running

/-- How a run of the quadrilateral program ends. -/
def Quad.exit (o : Outcome) (fuel : Nat) : Exit := exitOf o (Quad.run o fuel)

/-- How a run of the triangle program ends. -/
def Triangle.exit (o : Outcome) (fuel : Nat) : Exit := exitOf o (Triangle.run o fuel)

/-- The sample outcome with the function loader failing. -/
def loaderFailOutcome : Outcome := { sampleOutcome with gladLoadGLLoader := false }

/-- The sample outcome with a window that is never closed. -/
def neverClosedOutcome : Outcome := { sampleOutcome with shouldClose := fun _ => false }

/-! ## The binding state of the graphics device -/

/-- What `glVertexAttribPointer` records for one attribute: the buffer bound to
`GL_ARRAY_BUFFER` at the time of the call, and the layout. -/
structure AttribPointer where
  buffer : Nat
  size : Nat
  kind : GLenum
  normalized : Bool
  stride : Nat
  pointer : Nat
  deriving DecidableEq

/-- The state a vertex array object records. -/
structure VertexArray where
  /-- The `GL_ELEMENT_ARRAY_BUFFER` binding (0: none). -/
  elementBuffer : Nat
  attrib : Nat → Option AttribPointer
  enabled : Nat → Bool

/-- The part of the OpenGL 3.3 core state the programs touch: the vertex array binding,
the `GL_ARRAY_BUFFER` binding, the vertex array objects and the buffer contents.  The
name 0 is "nothing bound". -/
structure GLState where
  vertexArrayBinding : Nat
  arrayBufferBinding : Nat
  vertexArrays : Nat → VertexArray
  buffers : Nat → Option BufferData

/-- A vertex array object with nothing recorded. -/
def GLState.emptyArray : VertexArray :=
  { elementBuffer := 0, attrib := fun _ => none, enabled := fun _ => false }

/-- A fresh context: nothing bound, no data. -/
def GLState.initial : GLState :=
  { vertexArrayBinding := 0, arrayBufferBinding := 0,
    vertexArrays := fun _ => GLState.emptyArray, buffers := fun _ => none }

/-- Change the bound vertex array object; without one bound the call is an error and
changes nothing. -/
def GLState.modifyBoundArray (s : GLState) (f : VertexArray → VertexArray) : GLState :=
  if s.vertexArrayBinding = 0 then s
  else { s with vertexArrays :=
    Function.update s.vertexArrays s.vertexArrayBinding (f (s.vertexArrays s.vertexArrayBinding)) }

/-- The buffer a target names: `GL_ARRAY_BUFFER` is context state,
`GL_ELEMENT_ARRAY_BUFFER` is state of the bound vertex array object. -/
def GLState.boundBuffer (s : GLState) : GLenum → Nat
  | .GL_ARRAY_BUFFER => s.arrayBufferBinding
  | .GL_ELEMENT_ARRAY_BUFFER =>
    if s.vertexArrayBinding = 0 then 0 else (s.vertexArrays s.vertexArrayBinding).elementBuffer
  | _ => 0

/-- Effect of one call on the binding state.  Calls that do not touch it leave it
unchanged. -/
def GLState.step (s : GLState) : Call → GLState
  | .glBindVertexArray array => { s with vertexArrayBinding := array }
  | .glBindBuffer .GL_ARRAY_BUFFER buffer => { s with arrayBufferBinding := buffer }
  | .glBindBuffer .GL_ELEMENT_ARRAY_BUFFER buffer =>
    s.modifyBoundArray fun va => { va with elementBuffer := buffer }
  | .glBufferData target _ data _ =>
    if s.boundBuffer target = 0 then s
    else { s with buffers := Function.update s.buffers (s.boundBuffer target) (some data) }
  | .glVertexAttribPointer index size kind normalized stride pointer =>
    let recorded : AttribPointer :=
      { buffer := s.arrayBufferBinding, size := size, kind := kind,
        normalized := normalized, stride := stride, pointer := pointer }
    s.modifyBoundArray fun va =>
      { va with attrib := Function.update va.attrib index (some recorded) }
  | .glEnableVertexAttribArray index =>
    s.modifyBoundArray fun va => { va with enabled := Function.update va.enabled index true }
  | .glDeleteBuffers _ buffer =>
    let unbound : Nat := if s.arrayBufferBinding = buffer then 0 else s.arrayBufferBinding
    let s1 : GLState :=
      { s with buffers := Function.update s.buffers buffer none, arrayBufferBinding := unbound }
    s1.modifyBoundArray fun va =>
      { va with elementBuffer := if va.elementBuffer = buffer then 0 else va.elementBuffer }
  | .glDeleteVertexArrays _ array =>
    let unbound : Nat := if s.vertexArrayBinding = array then 0 else s.vertexArrayBinding
    { s with vertexArrays := Function.update s.vertexArrays array GLState.emptyArray,
             vertexArrayBinding := unbound }
  | _ => s

/-- The state after a list of calls. -/
def GLState.exec (s : GLState) (cs : List Call) : GLState := cs.foldl GLState.step s

/-- The states in which the draw calls of a list execute, in order. -/
def drawStates : GLState → List Call → List GLState
  | _, [] => []
  | s, c :: cs => (if c.isDraw then [s] else []) ++ drawStates (s.step c) cs

/-- The names `glGenVertexArrays` and `glGenBuffers` return are non-zero, and two
buffer names of one run differ. -/
def FreshNames (o : Outcome) : Prop :=
  o.VAO ≠ 0 ∧ o.VBO ≠ 0 ∧ o.EBO ≠ 0 ∧ o.VBO ≠ o.EBO

/-- The bound vertex array is `VAO`, its element buffer is `EBO` holding the uploaded
indices, and its enabled attribute 0 reads 3 floats per vertex, stride 3 floats,
offset 0, from `VBO` holding the uploaded vertices. -/
def Quad.DrawReady (o : Outcome) (s : GLState) : Prop :=
  s.vertexArrayBinding = o.VAO ∧
  (s.vertexArrays o.VAO).elementBuffer = o.EBO ∧
  s.buffers o.EBO = some (.uints Quad.indices) ∧
  (s.vertexArrays o.VAO).attrib 0 =
    some { buffer := o.VBO, size := 3, kind := .GL_FLOAT, normalized := false,
           stride := 3 * sizeof_float, pointer := 0 } ∧
  (s.vertexArrays o.VAO).enabled 0 = true ∧
  s.buffers o.VBO = some (.floats Quad.vertices)

/-- A call that can change the binding state. -/
def Call.touchesState : Call → Bool
  | .glBindVertexArray .. => true
  | .glBindBuffer .. => true
  | .glBufferData .. => true
  | .glVertexAttribPointer .. => true
  | .glEnableVertexAttribArray .. => true
  | .glDeleteBuffers .. => true
  | .glDeleteVertexArrays .. => true
  | _ => false

/-- The vertex array `VAO` records `EBO` and the layout over `VBO`, and both buffers
hold the uploaded data (whatever is bound at the moment). -/
def Quad.Uploaded (o : Outcome) (s : GLState) : Prop :=
  (s.vertexArrays o.VAO).elementBuffer = o.EBO ∧
  s.buffers o.EBO = some (.uints Quad.indices) ∧
  (s.vertexArrays o.VAO).attrib 0 =
    some { buffer := o.VBO, size := 3, kind := .GL_FLOAT, normalized := false,
           stride := 3 * sizeof_float, pointer := 0 } ∧
  (s.vertexArrays o.VAO).enabled 0 = true ∧
  s.buffers o.VBO = some (.floats Quad.vertices)

/-- A call that unbinds the index buffer. -/
def Call.isElementUnbind : Call → Bool
  | .glBindBuffer .GL_ELEMENT_ARRAY_BUFFER buffer => decide (buffer = 0)
  | _ => false

/-! ## Running the programs -/

theorem call_run (c : Call) (l : Log) :
    (call c).run l = ((), { calls := l.calls ++ [c], out := l.out }) := rfl

theorem cout_run (s : String) (l : Log) :
    (cout s).run l = ((), { calls := l.calls, out := l.out ++ [s ++ "\n"] }) := rfl

theorem quad_frame_run (o : Outcome) (l : Log) :
    (Quad.frame o).run l = ((), { calls := l.calls ++ Quad.frameCalls o, out := l.out }) := by
  simp [Quad.frame, Quad.frameCalls, call_run, StateT.run_bind]

theorem quad_frameLoop_closed (o : Outcome) (n : Nat) :
    ∀ (fuel k : Nat) (l : Log), (∀ j, j < n → o.shouldClose (k + j) = false) →
      o.shouldClose (k + n) = true → n < fuel →
      (Quad.frameLoop o fuel k).run l =
        (true, { calls := l.calls ++ iterations (Quad.frameCalls o) n ++
                   [.glfwWindowShouldClose true], out := l.out }) := by
  induction n with
  | zero =>
    intro fuel k l _ hc hf
    obtain ⟨f, rfl⟩ : ∃ f, fuel = f + 1 := ⟨fuel - 1, by omega⟩
    simp at hc
    simp [Quad.frameLoop, call_run, StateT.run_bind, hc, iterations]
  | succ n ih =>
    intro fuel k l ho hc hf
    obtain ⟨f, rfl⟩ : ∃ f, fuel = f + 1 := ⟨fuel - 1, by omega⟩
    have h0 : o.shouldClose k = false := by simpa using ho 0 (by omega)
    have := ih f (k + 1)
      ⟨l.calls ++ [.glfwWindowShouldClose false] ++ Quad.frameCalls o, l.out⟩
      (fun j hj => by have := ho (j + 1) (by omega); rwa [show k + 1 + j = k + (j + 1) by ring])
      (by rwa [show k + 1 + n = k + (n + 1) by ring]) (by omega)
    simp [Quad.frameLoop, call_run, StateT.run_bind, h0, iterations, quad_frame_run]
    simpa using this

theorem quad_frameLoop_open (o : Outcome) :
    ∀ (fuel k : Nat) (l : Log), (∀ j, j < fuel → o.shouldClose (k + j) = false) →
      (Quad.frameLoop o fuel k).run l =
        (false, { calls := l.calls ++ iterations (Quad.frameCalls o) fuel, out := l.out }) := by
  intro fuel
  induction fuel with
  | zero => intro k l _; simp [Quad.frameLoop, iterations]
  | succ f ih =>
    intro k l ho
    have h0 : o.shouldClose k = false := by simpa using ho 0 (by omega)
    have := ih (k + 1)
      ⟨l.calls ++ [.glfwWindowShouldClose false] ++ Quad.frameCalls o, l.out⟩
      (fun j hj => by have := ho (j + 1) (by omega); rwa [show k + 1 + j = k + (j + 1) by ring])
    simp [Quad.frameLoop, call_run, StateT.run_bind, h0, quad_frame_run, iterations]
    simpa using this

theorem shaderProgramBuild_run (o : Outcome) (l : Log) :
    (shaderProgramBuild o).run l =
      ((), { calls := l.calls ++ shaderCalls o, out := l.out ++ shaderOut o }) := by
  cases hv : o.vertex_success <;> cases hf : o.fragment_success <;> cases hl : o.link_success <;>
    simp [shaderProgramBuild, shaderCalls, shaderOut, call_run, cout_run, StateT.run_bind, hv,
      hf, hl]

theorem quad_run_init_failed (o : Outcome) (fuel : Nat) (hi : o.glfwInit = false) :
    Quad.run o fuel = (some (-1), { calls := [.glfwInit], out := [] }) := by
  simp [Quad.run, Quad.main, call_run, StateT.run_bind, hi]

theorem quad_run_window_failed (o : Outcome) (fuel : Nat) (hi : o.glfwInit = true)
    (hw : o.window = false) :
    Quad.run o fuel = (some (-1), { calls := Quad.bootstrapCalls ++ [.glfwTerminate],
                                    out := ["Failed to Create OpenGL Context\n"] }) := by
  simp [Quad.run, Quad.main, call_run, cout_run, StateT.run_bind, hi, hw, Quad.bootstrapCalls,
    Quad.hintCalls,
    Quad.screen_width, Quad.screen_height]

theorem quad_run_closed (o : Outcome) (fuel n : Nat) (hi : o.glfwInit = true)
    (hw : o.window = true) (hc : FirstCloseAt o n) (hf : n < fuel) :
    Quad.run o fuel = (some 0, { calls := Quad.setupCalls o ++ iterations (Quad.frameCalls o) n ++
                                   [.glfwWindowShouldClose true] ++ Quad.teardownCalls o,
                                 out := Quad.setupOut o }) := by
  have hloop := fun l =>
    quad_frameLoop_closed o n fuel 0 l (by simpa using hc.1) (by simpa using hc.2) hf
  cases hg : o.gladLoadGLLoader <;>
    simp [Quad.run, Quad.main, call_run, cout_run, StateT.run_bind, hi, hw, hg,
      Quad.bootstrapCalls, Quad.hintCalls,
      Quad.screen_width, Quad.screen_height, shaderProgramBuild_run, hloop, Quad.setupCalls,
      Quad.setupOut,
      Quad.uploadCalls, Quad.teardownCalls, BufferData.sizeof, sizeof_float, sizeof_unsigned_int,
      Quad.vertices, Quad.indices]

theorem quad_run_open (o : Outcome) (fuel : Nat) (hi : o.glfwInit = true) (hw : o.window = true)
    (ho : ∀ j, j < fuel → o.shouldClose j = false) :
    Quad.run o fuel = (none, { calls := Quad.setupCalls o ++ iterations (Quad.frameCalls o) fuel,
                               out := Quad.setupOut o }) := by
  have hloop := fun l => quad_frameLoop_open o fuel 0 l (by simpa using ho)
  cases hg : o.gladLoadGLLoader <;>
    simp [Quad.run, Quad.main, call_run, cout_run, StateT.run_bind, hi, hw, hg,
      Quad.bootstrapCalls, Quad.hintCalls,
      Quad.screen_width, Quad.screen_height, shaderProgramBuild_run, hloop, Quad.setupCalls,
      Quad.setupOut,
      Quad.uploadCalls, BufferData.sizeof, sizeof_float, sizeof_unsigned_int, Quad.vertices,
      Quad.indices]

theorem triangle_frame_run (o : Outcome) (l : Log) :
    (Triangle.frame o).run l =
      ((), { calls := l.calls ++ Triangle.frameCalls o, out := l.out }) := by
  simp [Triangle.frame, Triangle.frameCalls, call_run, StateT.run_bind]

theorem triangle_frameLoop_closed (o : Outcome) (n : Nat) :
    ∀ (fuel k : Nat) (l : Log), (∀ j, j < n → o.shouldClose (k + j) = false) →
      o.shouldClose (k + n) = true → n < fuel →
      (Triangle.frameLoop o fuel k).run l =
        (true, { calls := l.calls ++ iterations (Triangle.frameCalls o) n ++
                   [.glfwWindowShouldClose true], out := l.out }) := by
  induction n with
  | zero =>
    intro fuel k l _ hc hf
    obtain ⟨f, rfl⟩ : ∃ f, fuel = f + 1 := ⟨fuel - 1, by omega⟩
    simp at hc
    simp [Triangle.frameLoop, call_run, StateT.run_bind, hc, iterations]
  | succ n ih =>
    intro fuel k l ho hc hf
    obtain ⟨f, rfl⟩ : ∃ f, fuel = f + 1 := ⟨fuel - 1, by omega⟩
    have h0 : o.shouldClose k = false := by simpa using ho 0 (by omega)
    have := ih f (k + 1)
      ⟨l.calls ++ [.glfwWindowShouldClose false] ++ Triangle.frameCalls o, l.out⟩
      (fun j hj => by have := ho (j + 1) (by omega); rwa [show k + 1 + j = k + (j + 1) by ring])
      (by rwa [show k + 1 + n = k + (n + 1) by ring]) (by omega)
    simp [Triangle.frameLoop, call_run, StateT.run_bind, h0, iterations, triangle_frame_run]
    simpa using this

theorem triangle_frameLoop_open (o : Outcome) :
    ∀ (fuel k : Nat) (l : Log), (∀ j, j < fuel → o.shouldClose (k + j) = false) →
      (Triangle.frameLoop o fuel k).run l =
        (false, { calls := l.calls ++ iterations (Triangle.frameCalls o) fuel, out := l.out }) := by
  intro fuel
  induction fuel with
  | zero => intro k l _; simp [Triangle.frameLoop, iterations]
  | succ f ih =>
    intro k l ho
    have h0 : o.shouldClose k = false := by simpa using ho 0 (by omega)
    have := ih (k + 1)
      ⟨l.calls ++ [.glfwWindowShouldClose false] ++ Triangle.frameCalls o, l.out⟩
      (fun j hj => by have := ho (j + 1) (by omega); rwa [show k + 1 + j = k + (j + 1) by ring])
    simp [Triangle.frameLoop, call_run, StateT.run_bind, h0, triangle_frame_run, iterations]
    simpa using this

theorem triangle_run_init_failed (o : Outcome) (fuel : Nat) (hi : o.glfwInit = false) :
    Triangle.run o fuel = (some (-1), { calls := [.glfwInit], out := [] }) := by
  simp [Triangle.run, Triangle.main, call_run, StateT.run_bind, hi]

theorem triangle_run_window_failed (o : Outcome) (fuel : Nat) (hi : o.glfwInit = true)
    (hw : o.window = false) :
    Triangle.run o fuel = (some (-1), { calls := Triangle.bootstrapCalls ++ [.glfwTerminate],
                                        out := ["Failed to Create OpenGL Context\n"] }) := by
  simp [Triangle.run, Triangle.main, call_run, cout_run, StateT.run_bind, hi, hw,
    Triangle.bootstrapCalls, Triangle.hintCalls,
    Triangle.screen_width, Triangle.screen_height]

theorem triangle_run_closed (o : Outcome) (fuel n : Nat) (hi : o.glfwInit = true)
    (hw : o.window = true) (hc : FirstCloseAt o n) (hf : n < fuel) :
    Triangle.run o fuel = (some 0, { calls := Triangle.setupCalls o ++ iterations (Triangle.frameCalls o) n ++
                                       [.glfwWindowShouldClose true] ++ Triangle.teardownCalls o,
                                     out := Triangle.setupOut o }) := by
  have hloop := fun l =>
    triangle_frameLoop_closed o n fuel 0 l (by simpa using hc.1) (by simpa using hc.2) hf
  cases hg : o.gladLoadGLLoader <;>
    simp [Triangle.run, Triangle.main, call_run, cout_run, StateT.run_bind, hi, hw, hg,
      Triangle.bootstrapCalls, Triangle.hintCalls,
      Triangle.screen_width, Triangle.screen_height, shaderProgramBuild_run, hloop,
      Triangle.setupCalls, Triangle.setupOut,
      Triangle.uploadCalls, Triangle.teardownCalls, BufferData.sizeof, sizeof_float,
      sizeof_unsigned_int,
      Triangle.triangle]

theorem triangle_run_open (o : Outcome) (fuel : Nat) (hi : o.glfwInit = true) (hw : o.window = true)
    (ho : ∀ j, j < fuel → o.shouldClose j = false) :
    Triangle.run o fuel = (none, { calls := Triangle.setupCalls o ++ iterations (Triangle.frameCalls o) fuel,
                                   out := Triangle.setupOut o }) := by
  have hloop := fun l => triangle_frameLoop_open o fuel 0 l (by simpa using ho)
  cases hg : o.gladLoadGLLoader <;>
    simp [Triangle.run, Triangle.main, call_run, cout_run, StateT.run_bind, hi, hw, hg,
      Triangle.bootstrapCalls, Triangle.hintCalls,
      Triangle.screen_width, Triangle.screen_height, shaderProgramBuild_run, hloop,
      Triangle.setupCalls, Triangle.setupOut,
      Triangle.uploadCalls, BufferData.sizeof, sizeof_float, sizeof_unsigned_int, Triangle.triangle]

/-- Within any fuel, either the close flag is first observed at some query below the
fuel, or every query below the fuel is answered "no". -/
theorem close_cases (o : Outcome) (fuel : Nat) :
    (∃ n, n < fuel ∧ FirstCloseAt o n) ∨ (∀ j, j < fuel → o.shouldClose j = false) := by
  induction fuel with
  | zero => right; intro j hj; omega
  | succ f ih =>
    rcases ih with ⟨n, hn, h⟩ | h
    · exact Or.inl ⟨n, by omega, h⟩
    · cases hc : o.shouldClose f
      · right
        intro j hj
        rcases Nat.lt_succ_iff_lt_or_eq.mp hj with h1 | h1
        · exact h j h1
        · rw [h1]; exact hc
      · exact Or.inl ⟨f, by omega, h, hc⟩

/-! ## Geometry and shader -/

/-- C1: in the quadrilateral program the index list reads as the triangles (0,1,3) and
(1,2,3); their areas, each half the absolute value of a 2D cross product of two edge
vectors over the vertex list, add up to width times height of the rectangle spanned by
the four vertices, which is 1 times 1, and neither triangle is degenerate. -/
theorem quad_triangles_tile_rectangle :
    triangleList Quad.indices = [(0, 1, 3), (1, 2, 3)] ∧
    vertexCount Quad.vertices = 4 ∧
    ((triangleList Quad.indices).map (triangleArea Quad.vertices)).sum =
      spanWidth Quad.vertices * spanHeight Quad.vertices ∧
    spanWidth Quad.vertices = 1 ∧ spanHeight Quad.vertices = 1 ∧
    ∀ t, t ∈ triangleList Quad.indices → triangleArea Quad.vertices t ≠ 0 := by
  have hw : spanWidth Quad.vertices = 1 := by
    simp [spanWidth, extent, xs, vertexCount, Quad.vertices, position2, List.range,
      List.range.loop]
    norm_num
  have hh : spanHeight Quad.vertices = 1 := by
    simp [spanHeight, extent, ys, vertexCount, Quad.vertices, position2, List.range,
      List.range.loop]
    norm_num
  have ha : (triangleList Quad.indices).map (triangleArea Quad.vertices) = [1 / 2, 1 / 2] := by
    simp [triangleList, Quad.indices, triangleArea, Quad.vertices, position2, cross2]
    norm_num
  have hl : triangleList Quad.indices = [(0, 1, 3), (1, 2, 3)] := by decide
  refine ⟨hl, by simp [vertexCount, Quad.vertices], ?_, hw, hh, ?_⟩
  · rw [ha, hw, hh]; norm_num
  · intro t ht
    have hmem : triangleArea Quad.vertices t ∈
        (triangleList Quad.indices).map (triangleArea Quad.vertices) := List.mem_map_of_mem _ ht
    rw [ha] at hmem
    simp at hmem
    rw [hmem]; norm_num

/-- C7: the vertex shader of both programs sends every position (x, y, z) to
(x, y, z, 1); the four vertices of the quadrilateral go to (±0.5, ±0.5, 0, 1) and the
three vertices of the triangle to their positions with fourth component 1. -/
theorem vertex_shader_lifts_position :
    (∀ (α : Type) [One α] (x y z : α), vertex_shader_main (x, y, z) = (x, y, z, 1)) ∧
    (List.range 4).map (fun i => vertex_shader_main (position3 Quad.vertices i)) =
      [(0.5, 0.5, 0, 1), (0.5, -0.5, 0, 1), (-0.5, -0.5, 0, 1), (-0.5, 0.5, 0, 1)] ∧
    (List.range 3).map (fun i => vertex_shader_main (position3 Triangle.triangle i)) =
      [(-0.5, -0.5, 0, 1), (0.5, -0.5, 0, 1), (0, 0.5, 0, 1)] := by
  refine ⟨fun _ _ _ _ _ => rfl, ?_, ?_⟩
  · simp [vertex_shader_main, vec4, position3, Quad.vertices, List.range, List.range.loop]
    norm_num
  · simp [vertex_shader_main, vec4, position3, Triangle.triangle, List.range, List.range.loop]
    norm_num

/-! ## Lemmas on logs -/

theorem filter_iterations (p : Call → Bool) (body : List Call)
    (hq : p (.glfwWindowShouldClose false) = false) (n : Nat) :
    (iterations body n).filter p = (List.replicate n (body.filter p)).flatten := by
  induction n with
  | zero => simp [iterations]
  | succ n ih => simp [iterations, hq, ih, List.replicate_succ]

theorem filter_iterations_nil (p : Call → Bool) (body : List Call)
    (hq : p (.glfwWindowShouldClose false) = false) (hb : body.filter p = []) (n : Nat) :
    (iterations body n).filter p = [] := by
  rw [filter_iterations p body hq, hb]
  simp

theorem filter_iterations_length (p : Call → Bool) (body : List Call) (c : Call)
    (hq : p (.glfwWindowShouldClose false) = false) (hb : body.filter p = [c]) (n : Nat) :
    ((iterations body n).filter p).length = n := by
  induction n with
  | zero => simp [iterations]
  | succ n ih => simp [iterations, hq, hb, ih]

theorem mem_iterations (body : List Call) (c : Call) (n : Nat) (h : c ∈ iterations body n) :
    c = .glfwWindowShouldClose false ∨ c ∈ body := by
  induction n with
  | zero => simp [iterations] at h
  | succ n ih =>
    simp [iterations] at h
    rcases h with h | h | h
    · exact Or.inl h
    · exact Or.inr h
    · exact ih h

theorem windowHints_append (xs ys : List Call) :
    windowHints (xs ++ ys) = windowHints xs ++ windowHints ys := by
  simp [windowHints]

theorem windowHints_iterations (body : List Call) (hb : windowHints body = []) (n : Nat) :
    windowHints (iterations body n) = [] := by
  induction n with
  | zero => simp [iterations, windowHints]
  | succ n ih =>
    have : windowHints (Call.glfwWindowShouldClose false :: (body ++ iterations body n)) =
        windowHints body ++ windowHints (iterations body n) := by
      simp [windowHints, Call.hint?]
    simp [iterations, this, hb, ih]

theorem windowHints_shaderCalls (o : Outcome) : windowHints (shaderCalls o) = [] := by
  cases hv : o.vertex_success <;> cases hf : o.fragment_success <;> cases hl : o.link_success <;>
    simp [shaderCalls, windowHints, Call.hint?, hv, hf, hl]

theorem quad_run_cases (o : Outcome) (fuel : Nat) :
    (o.glfwInit = false ∧ Quad.run o fuel = (some (-1), { calls := [.glfwInit], out := [] })) ∨
    (o.glfwInit = true ∧ o.window = false ∧
      Quad.run o fuel = (some (-1), { calls := Quad.bootstrapCalls ++ [.glfwTerminate],
                                      out := ["Failed to Create OpenGL Context\n"] })) ∨
    (o.glfwInit = true ∧ o.window = true ∧ ∃ n, n < fuel ∧ FirstCloseAt o n ∧
      Quad.run o fuel = (some 0, { calls := Quad.setupCalls o ++
                                     iterations (Quad.frameCalls o) n ++
                                     [.glfwWindowShouldClose true] ++ Quad.teardownCalls o,
                                   out := Quad.setupOut o })) ∨
    (o.glfwInit = true ∧ o.window = true ∧ (∀ j, j < fuel → o.shouldClose j = false) ∧
      Quad.run o fuel = (none, { calls := Quad.setupCalls o ++
                                   iterations (Quad.frameCalls o) fuel,
                                 out := Quad.setupOut o })) := by
  cases hi : o.glfwInit
  · exact Or.inl ⟨rfl, quad_run_init_failed o fuel hi⟩
  · cases hw : o.window
    · exact Or.inr (Or.inl ⟨rfl, rfl, quad_run_window_failed o fuel hi hw⟩)
    · rcases close_cases o fuel with ⟨n, hn, hc⟩ | ho
      · exact Or.inr (Or.inr (Or.inl ⟨rfl, rfl, n, hn, hc, quad_run_closed o fuel n hi hw hc hn⟩))
      · exact Or.inr (Or.inr (Or.inr ⟨rfl, rfl, ho, quad_run_open o fuel hi hw ho⟩))

theorem triangle_run_cases (o : Outcome) (fuel : Nat) :
    (o.glfwInit = false ∧
      Triangle.run o fuel = (some (-1), { calls := [.glfwInit], out := [] })) ∨
    (o.glfwInit = true ∧ o.window = false ∧
      Triangle.run o fuel = (some (-1), { calls := Triangle.bootstrapCalls ++ [.glfwTerminate],
                                          out := ["Failed to Create OpenGL Context\n"] })) ∨
    (o.glfwInit = true ∧ o.window = true ∧ ∃ n, n < fuel ∧ FirstCloseAt o n ∧
      Triangle.run o fuel = (some 0, { calls := Triangle.setupCalls o ++
                                         iterations (Triangle.frameCalls o) n ++
                                         [.glfwWindowShouldClose true] ++
                                         Triangle.teardownCalls o,
                                       out := Triangle.setupOut o })) ∨
    (o.glfwInit = true ∧ o.window = true ∧ (∀ j, j < fuel → o.shouldClose j = false) ∧
      Triangle.run o fuel = (none, { calls := Triangle.setupCalls o ++
                                       iterations (Triangle.frameCalls o) fuel,
                                     out := Triangle.setupOut o })) := by
  cases hi : o.glfwInit
  · exact Or.inl ⟨rfl, triangle_run_init_failed o fuel hi⟩
  · cases hw : o.window
    · exact Or.inr (Or.inl ⟨rfl, rfl, triangle_run_window_failed o fuel hi hw⟩)
    · rcases close_cases o fuel with ⟨n, hn, hc⟩ | ho
      · exact Or.inr (Or.inr (Or.inl
          ⟨rfl, rfl, n, hn, hc, triangle_run_closed o fuel n hi hw hc hn⟩))
      · exact Or.inr (Or.inr (Or.inr ⟨rfl, rfl, ho, triangle_run_open o fuel hi hw ho⟩))

/-- With the windowing library up, a run of the quadrilateral program starts with the
bootstrap calls, and no window hint follows them. -/
theorem quad_run_bootstrap (o : Outcome) (fuel : Nat) (hi : o.glfwInit = true) :
    ∃ rest, (Quad.run o fuel).2.calls = Quad.bootstrapCalls ++ rest ∧ windowHints rest = [] := by
  rcases quad_run_cases o fuel with ⟨h, _⟩ | ⟨_, _, h⟩ | ⟨_, _, n, _, _, h⟩ | ⟨_, _, _, h⟩
  · rw [hi] at h; cases h
  · exact ⟨[.glfwTerminate], by rw [h], by simp [windowHints, Call.hint?]⟩
  · refine ⟨[.glfwMakeContextCurrent, .gladLoadGLLoader, .glViewport 0 0 1280 720] ++
      Quad.uploadCalls o ++ shaderCalls o ++ iterations (Quad.frameCalls o) n ++
      [.glfwWindowShouldClose true] ++ Quad.teardownCalls o, by rw [h]; simp [Quad.setupCalls], ?_⟩
    simp only [windowHints_append, windowHints_shaderCalls,
      windowHints_iterations (Quad.frameCalls o) (by simp [Quad.frameCalls, windowHints,
      Call.hint?])]
    simp [windowHints, Call.hint?, Quad.uploadCalls, Quad.teardownCalls]
  · refine ⟨[.glfwMakeContextCurrent, .gladLoadGLLoader, .glViewport 0 0 1280 720] ++
      Quad.uploadCalls o ++ shaderCalls o ++ iterations (Quad.frameCalls o) fuel,
      by rw [h]; simp [Quad.setupCalls], ?_⟩
    simp only [windowHints_append, windowHints_shaderCalls,
      windowHints_iterations (Quad.frameCalls o) (by simp [Quad.frameCalls, windowHints,
      Call.hint?])]
    simp [windowHints, Call.hint?, Quad.uploadCalls]

/-- With the windowing library up, a run of the triangle program starts with the
bootstrap calls, and no window hint follows them. -/
theorem triangle_run_bootstrap (o : Outcome) (fuel : Nat) (hi : o.glfwInit = true) :
    ∃ rest, (Triangle.run o fuel).2.calls = Triangle.bootstrapCalls ++ rest ∧
      windowHints rest = [] := by
  rcases triangle_run_cases o fuel with ⟨h, _⟩ | ⟨_, _, h⟩ | ⟨_, _, n, _, _, h⟩ | ⟨_, _, _, h⟩
  · rw [hi] at h; cases h
  · exact ⟨[.glfwTerminate], by rw [h], by simp [windowHints, Call.hint?]⟩
  · refine ⟨[.glfwMakeContextCurrent, .gladLoadGLLoader, .glViewport 0 0 1280 720] ++
      Triangle.uploadCalls o ++ shaderCalls o ++ iterations (Triangle.frameCalls o) n ++
      [.glfwWindowShouldClose true] ++ Triangle.teardownCalls o,
      by rw [h]; simp [Triangle.setupCalls], ?_⟩
    simp only [windowHints_append, windowHints_shaderCalls,
      windowHints_iterations (Triangle.frameCalls o)
        (by simp [Triangle.frameCalls, windowHints, Call.hint?])]
    simp [windowHints, Call.hint?, Triangle.uploadCalls, Triangle.teardownCalls]
  · refine ⟨[.glfwMakeContextCurrent, .gladLoadGLLoader, .glViewport 0 0 1280 720] ++
      Triangle.uploadCalls o ++ shaderCalls o ++ iterations (Triangle.frameCalls o) fuel,
      by rw [h]; simp [Triangle.setupCalls], ?_⟩
    simp only [windowHints_append, windowHints_shaderCalls,
      windowHints_iterations (Triangle.frameCalls o)
        (by simp [Triangle.frameCalls, windowHints, Call.hint?])]
    simp [windowHints, Call.hint?, Triangle.uploadCalls]

theorem quad_windowHints_run (o : Outcome) (fuel : Nat) (hi : o.glfwInit = true) :
    windowHints (Quad.run o fuel).2.calls =
      [(.GLFW_CONTEXT_VERSION_MAJOR, .int 3), (.GLFW_CONTEXT_VERSION_MINOR, .int 3),
       (.GLFW_OPENGL_ANY_PROFILE, .const .GLFW_OPENGL_CORE_PROFILE),
       (.GLFW_RELEASE, .bool false)] := by
  obtain ⟨rest, h, hr⟩ := quad_run_bootstrap o fuel hi
  rw [h, windowHints_append, hr]
  simp [windowHints, Call.hint?, Quad.bootstrapCalls, Quad.hintCalls]

theorem triangle_windowHints_run (o : Outcome) (fuel : Nat) (hi : o.glfwInit = true) :
    windowHints (Triangle.run o fuel).2.calls =
      [(.GLFW_CONTEXT_VERSION_MAJOR, .int 3), (.GLFW_CONTEXT_VERSION_MINOR, .int 3),
       (.GLFW_OPENGL_ANY_PROFILE, .const .GLFW_OPENGL_CORE_PROFILE),
       (.GLFW_RESIZABLE, .bool false)] := by
  obtain ⟨rest, h, hr⟩ := triangle_run_bootstrap o fuel hi
  rw [h, windowHints_append, hr]
  simp [windowHints, Call.hint?, Triangle.bootstrapCalls, Triangle.hintCalls]

/-! ## Window hints -/

theorem sampleOutcome_firstClose : FirstCloseAt sampleOutcome 2 := by
  constructor
  · intro j hj
    simp [sampleOutcome]
    omega
  · simp [sampleOutcome]

/-- C2: the quadrilateral program issues, before window creation, the hints
major 3, minor 3, (GLFW_OPENGL_ANY_PROFILE, core) and (GLFW_RELEASE, false), and no
other hint in the whole run: none of them has the key GLFW_RESIZABLE, by name or by
number, while the triangle program does issue (GLFW_RESIZABLE, false). -/
theorem quad_hints_omit_resizable (o : Outcome) (fuel : Nat) (hi : o.glfwInit = true) :
    (∃ rest, (Quad.run o fuel).2.calls =
      [.glfwInit,
       .glfwWindowHint .GLFW_CONTEXT_VERSION_MAJOR (.int 3),
       .glfwWindowHint .GLFW_CONTEXT_VERSION_MINOR (.int 3),
       .glfwWindowHint .GLFW_OPENGL_ANY_PROFILE (.const .GLFW_OPENGL_CORE_PROFILE),
       .glfwWindowHint .GLFW_RELEASE (.bool false),
       .glfwCreateWindow 1280 720 "Quadrilateral"] ++ rest ∧ windowHints rest = []) ∧
    (∀ h, h ∈ windowHints (Quad.run o fuel).2.calls →
      h.1 ≠ .GLFW_RESIZABLE ∧ h.1.value ≠ GlfwName.GLFW_RESIZABLE.value) ∧
    (.GLFW_RESIZABLE, .bool false) ∈ windowHints (Triangle.run o fuel).2.calls := by
  refine ⟨?_, ?_, ?_⟩
  · simpa [Quad.bootstrapCalls, Quad.hintCalls] using quad_run_bootstrap o fuel hi
  · rw [quad_windowHints_run o fuel hi]
    decide
  · rw [triangle_windowHints_run o fuel hi]
    decide

/-- Witness for C2: the sample outcome, fuel 3. -/
theorem quad_hints_omit_resizable_at_sample :
    sampleOutcome.glfwInit = true ∧
    (∀ h, h ∈ windowHints (Quad.run sampleOutcome 3).2.calls →
      h.1 ≠ .GLFW_RESIZABLE ∧ h.1.value ≠ GlfwName.GLFW_RESIZABLE.value) ∧
    (.GLFW_RESIZABLE, .bool false) ∈ windowHints (Triangle.run sampleOutcome 3).2.calls :=
  ⟨rfl, (quad_hints_omit_resizable sampleOutcome 3 rfl).2⟩

/-- C3: in both programs the hints of a run are major 3, minor 3, then
(GLFW_OPENGL_ANY_PROFILE, core) and the resizable or release hint: the version is
requested as 3.3, but the key that carries GLFW_OPENGL_CORE_PROFILE is
GLFW_OPENGL_ANY_PROFILE, and no hint of the run has the key GLFW_OPENGL_PROFILE, by
name or by number. -/
theorem core_profile_hint_key (o : Outcome) (fuel : Nat) (hi : o.glfwInit = true) :
    (windowHints (Quad.run o fuel).2.calls =
        [(.GLFW_CONTEXT_VERSION_MAJOR, .int 3), (.GLFW_CONTEXT_VERSION_MINOR, .int 3),
         (.GLFW_OPENGL_ANY_PROFILE, .const .GLFW_OPENGL_CORE_PROFILE),
         (.GLFW_RELEASE, .bool false)] ∧
      (∀ h, h ∈ windowHints (Quad.run o fuel).2.calls →
        h.2 = .const .GLFW_OPENGL_CORE_PROFILE → h.1 = .GLFW_OPENGL_ANY_PROFILE) ∧
      (∀ h, h ∈ windowHints (Quad.run o fuel).2.calls →
        h.1 ≠ .GLFW_OPENGL_PROFILE ∧ h.1.value ≠ GlfwName.GLFW_OPENGL_PROFILE.value)) ∧
    (windowHints (Triangle.run o fuel).2.calls =
        [(.GLFW_CONTEXT_VERSION_MAJOR, .int 3), (.GLFW_CONTEXT_VERSION_MINOR, .int 3),
         (.GLFW_OPENGL_ANY_PROFILE, .const .GLFW_OPENGL_CORE_PROFILE),
         (.GLFW_RESIZABLE, .bool false)] ∧
      (∀ h, h ∈ windowHints (Triangle.run o fuel).2.calls →
        h.2 = .const .GLFW_OPENGL_CORE_PROFILE → h.1 = .GLFW_OPENGL_ANY_PROFILE) ∧
      (∀ h, h ∈ windowHints (Triangle.run o fuel).2.calls →
        h.1 ≠ .GLFW_OPENGL_PROFILE ∧ h.1.value ≠ GlfwName.GLFW_OPENGL_PROFILE.value)) := by
  rw [quad_windowHints_run o fuel hi, triangle_windowHints_run o fuel hi]
  decide

/-- Witness for C3: the sample outcome, fuel 3. -/
theorem core_profile_hint_key_at_sample :
    sampleOutcome.glfwInit = true ∧
    (∀ h, h ∈ windowHints (Quad.run sampleOutcome 3).2.calls →
      h.1 ≠ .GLFW_OPENGL_PROFILE ∧ h.1.value ≠ GlfwName.GLFW_OPENGL_PROFILE.value) ∧
    (∀ h, h ∈ windowHints (Triangle.run sampleOutcome 3).2.calls →
      h.1 ≠ .GLFW_OPENGL_PROFILE ∧ h.1.value ≠ GlfwName.GLFW_OPENGL_PROFILE.value) :=
  ⟨rfl, (core_profile_hint_key sampleOutcome 3 rfl).1.2.2,
    (core_profile_hint_key sampleOutcome 3 rfl).2.2.2⟩

/-! ## Window creation failure -/

theorem quad_noDevice_bootstrap :
    ∀ c, c ∈ Quad.bootstrapCalls ++ [.glfwTerminate] → c.isDevice = false := by
  simp [Quad.bootstrapCalls, Quad.hintCalls, Call.isDevice]

theorem triangle_noDevice_bootstrap :
    ∀ c, c ∈ Triangle.bootstrapCalls ++ [.glfwTerminate] → c.isDevice = false := by
  simp [Triangle.bootstrapCalls, Triangle.hintCalls, Call.isDevice]

/-! ## Frame loop and teardown -/

theorem quad_filter_setupCalls_draw (o : Outcome) :
    (Quad.setupCalls o).filter Call.isDraw = [] := by
  cases hv : o.vertex_success <;> cases hf : o.fragment_success <;> cases hl : o.link_success <;>
    simp [Quad.setupCalls, Quad.bootstrapCalls, Quad.hintCalls, Quad.uploadCalls, shaderCalls,
      Call.isDraw, hv, hf, hl]

theorem quad_filter_setupCalls_swap (o : Outcome) :
    (Quad.setupCalls o).filter Call.isSwap = [] := by
  cases hv : o.vertex_success <;> cases hf : o.fragment_success <;> cases hl : o.link_success <;>
    simp [Quad.setupCalls, Quad.bootstrapCalls, Quad.hintCalls, Quad.uploadCalls, shaderCalls,
      Call.isSwap, hv, hf, hl]

theorem quad_filter_setupCalls_close (o : Outcome) :
    (Quad.setupCalls o).filter Call.isCloseObserved = [] := by
  cases hv : o.vertex_success <;> cases hf : o.fragment_success <;> cases hl : o.link_success <;>
    simp [Quad.setupCalls, Quad.bootstrapCalls, Quad.hintCalls, Quad.uploadCalls, shaderCalls,
      Call.isCloseObserved, hv, hf, hl]

theorem quad_filter_setupCalls_release (o : Outcome) :
    (Quad.setupCalls o).filter Call.isRelease = [] := by
  cases hv : o.vertex_success <;> cases hf : o.fragment_success <;> cases hl : o.link_success <;>
    simp [Quad.setupCalls, Quad.bootstrapCalls, Quad.hintCalls, Quad.uploadCalls, shaderCalls,
      Call.isRelease, hv, hf, hl]

theorem quad_filter_setupCalls_gen (o : Outcome) :
    (Quad.setupCalls o).filter Call.isGen =
      [.glGenVertexArrays 1, .glGenBuffers 1, .glGenBuffers 1] := by
  cases hv : o.vertex_success <;> cases hf : o.fragment_success <;> cases hl : o.link_success <;>
    simp [Quad.setupCalls, Quad.bootstrapCalls, Quad.hintCalls, Quad.uploadCalls, shaderCalls,
      Call.isGen, hv, hf, hl]

theorem triangle_filter_setupCalls_draw (o : Outcome) :
    (Triangle.setupCalls o).filter Call.isDraw = [] := by
  cases hv : o.vertex_success <;> cases hf : o.fragment_success <;> cases hl : o.link_success <;>
    simp [Triangle.setupCalls, Triangle.bootstrapCalls, Triangle.hintCalls,
      Triangle.uploadCalls, shaderCalls, Call.isDraw, hv, hf, hl]

theorem triangle_filter_setupCalls_swap (o : Outcome) :
    (Triangle.setupCalls o).filter Call.isSwap = [] := by
  cases hv : o.vertex_success <;> cases hf : o.fragment_success <;> cases hl : o.link_success <;>
    simp [Triangle.setupCalls, Triangle.bootstrapCalls, Triangle.hintCalls,
      Triangle.uploadCalls, shaderCalls, Call.isSwap, hv, hf, hl]

theorem triangle_filter_setupCalls_close (o : Outcome) :
    (Triangle.setupCalls o).filter Call.isCloseObserved = [] := by
  cases hv : o.vertex_success <;> cases hf : o.fragment_success <;> cases hl : o.link_success <;>
    simp [Triangle.setupCalls, Triangle.bootstrapCalls, Triangle.hintCalls,
      Triangle.uploadCalls, shaderCalls, Call.isCloseObserved, hv, hf, hl]

theorem triangle_filter_setupCalls_release (o : Outcome) :
    (Triangle.setupCalls o).filter Call.isRelease = [] := by
  cases hv : o.vertex_success <;> cases hf : o.fragment_success <;> cases hl : o.link_success <;>
    simp [Triangle.setupCalls, Triangle.bootstrapCalls, Triangle.hintCalls,
      Triangle.uploadCalls, shaderCalls, Call.isRelease, hv, hf, hl]

theorem triangle_filter_setupCalls_gen (o : Outcome) :
    (Triangle.setupCalls o).filter Call.isGen = [.glGenVertexArrays 1, .glGenBuffers 1] := by
  cases hv : o.vertex_success <;> cases hf : o.fragment_success <;> cases hl : o.link_success <;>
    simp [Triangle.setupCalls, Triangle.bootstrapCalls, Triangle.hintCalls,
      Triangle.uploadCalls, shaderCalls, Call.isGen, hv, hf, hl]

/-- C5: when glfwInit and window creation succeeded and the close flag is first
observed at query n (within the fuel), each program returns 0 and its log is a part
`pre` followed by the should-close query answered "yes" and then the teardown calls:
`pre` holds exactly n draw calls and n buffer swaps, no earlier "yes", no release call,
and one name-creating call per handle; after the "yes" come only the deletion of the
vertex array, of the vertex buffer (and, in the quadrilateral program, of the index
buffer), each once, and then one glfwTerminate. -/
theorem close_then_teardown_once (o : Outcome) (fuel n : Nat) (hi : o.glfwInit = true)
    (hw : o.window = true) (hc : FirstCloseAt o n) (hf : n < fuel) :
    ((Quad.run o fuel).1 = some 0 ∧
      ∃ pre, (Quad.run o fuel).2.calls =
          pre ++ .glfwWindowShouldClose true ::
            [.glDeleteVertexArrays 1 o.VAO, .glDeleteBuffers 1 o.VBO,
             .glDeleteBuffers 1 o.EBO, .glfwTerminate] ∧
        pre.countP Call.isDraw = n ∧ pre.countP Call.isSwap = n ∧
        pre.filter Call.isCloseObserved = [] ∧ pre.filter Call.isRelease = [] ∧
        pre.filter Call.isGen = [.glGenVertexArrays 1, .glGenBuffers 1, .glGenBuffers 1]) ∧
    ((Triangle.run o fuel).1 = some 0 ∧
      ∃ pre, (Triangle.run o fuel).2.calls =
          pre ++ .glfwWindowShouldClose true ::
            [.glDeleteVertexArrays 1 o.VAO, .glDeleteBuffers 1 o.VBO, .glfwTerminate] ∧
        pre.countP Call.isDraw = n ∧ pre.countP Call.isSwap = n ∧
        pre.filter Call.isCloseObserved = [] ∧ pre.filter Call.isRelease = [] ∧
        pre.filter Call.isGen = [.glGenVertexArrays 1, .glGenBuffers 1]) := by
  constructor
  · rw [quad_run_closed o fuel n hi hw hc hf]
    refine ⟨rfl, Quad.setupCalls o ++ iterations (Quad.frameCalls o) n, ?_, ?_, ?_, ?_, ?_, ?_⟩
    · simp [Quad.teardownCalls]
    · rw [List.countP_eq_length_filter, List.filter_append, quad_filter_setupCalls_draw]
      simpa using filter_iterations_length Call.isDraw (Quad.frameCalls o)
        (.glDrawElements .GL_TRIANGLES 6 .GL_UNSIGNED_INT 0) rfl
        (by simp [Quad.frameCalls, Call.isDraw]) n
    · rw [List.countP_eq_length_filter, List.filter_append, quad_filter_setupCalls_swap]
      simpa using filter_iterations_length Call.isSwap (Quad.frameCalls o)
        .glfwSwapBuffers rfl (by simp [Quad.frameCalls, Call.isSwap]) n
    · rw [List.filter_append, quad_filter_setupCalls_close,
        filter_iterations_nil Call.isCloseObserved (Quad.frameCalls o) rfl
          (by simp [Quad.frameCalls, Call.isCloseObserved])]
      rfl
    · rw [List.filter_append, quad_filter_setupCalls_release,
        filter_iterations_nil Call.isRelease (Quad.frameCalls o) rfl
          (by simp [Quad.frameCalls, Call.isRelease])]
      rfl
    · rw [List.filter_append, quad_filter_setupCalls_gen,
        filter_iterations_nil Call.isGen (Quad.frameCalls o) rfl
          (by simp [Quad.frameCalls, Call.isGen])]
      rfl
  · rw [triangle_run_closed o fuel n hi hw hc hf]
    refine ⟨rfl, Triangle.setupCalls o ++ iterations (Triangle.frameCalls o) n,
      ?_, ?_, ?_, ?_, ?_, ?_⟩
    · simp [Triangle.teardownCalls]
    · rw [List.countP_eq_length_filter, List.filter_append, triangle_filter_setupCalls_draw]
      simpa using filter_iterations_length Call.isDraw (Triangle.frameCalls o)
        (.glDrawArrays .GL_TRIANGLES 0 3) rfl
        (by simp [Triangle.frameCalls, Call.isDraw]) n
    · rw [List.countP_eq_length_filter, List.filter_append, triangle_filter_setupCalls_swap]
      simpa using filter_iterations_length Call.isSwap (Triangle.frameCalls o)
        .glfwSwapBuffers rfl (by simp [Triangle.frameCalls, Call.isSwap]) n
    · rw [List.filter_append, triangle_filter_setupCalls_close,
        filter_iterations_nil Call.isCloseObserved (Triangle.frameCalls o) rfl
          (by simp [Triangle.frameCalls, Call.isCloseObserved])]
      rfl
    · rw [List.filter_append, triangle_filter_setupCalls_release,
        filter_iterations_nil Call.isRelease (Triangle.frameCalls o) rfl
          (by simp [Triangle.frameCalls, Call.isRelease])]
      rfl
    · rw [List.filter_append, triangle_filter_setupCalls_gen,
        filter_iterations_nil Call.isGen (Triangle.frameCalls o) rfl
          (by simp [Triangle.frameCalls, Call.isGen])]
      rfl

/-- Witness for C5: the sample outcome closes at query 2; fuel 3. -/
theorem close_then_teardown_once_at_sample :
    sampleOutcome.glfwInit = true ∧ sampleOutcome.window = true ∧
    FirstCloseAt sampleOutcome 2 ∧ 2 < 3 ∧
    (Quad.run sampleOutcome 3).1 = some 0 ∧ (Triangle.run sampleOutcome 3).1 = some 0 :=
  ⟨rfl, rfl, sampleOutcome_firstClose, by decide,
    (close_then_teardown_once sampleOutcome 3 2 rfl rfl sampleOutcome_firstClose
      (by decide)).1.1,
    (close_then_teardown_once sampleOutcome 3 2 rfl rfl sampleOutcome_firstClose
      (by decide)).2.1⟩

/-- C6: in a run in which the window was created, the log is the set-up calls (no draw
call among them), then some number of loop iterations, then either nothing (fuel ran
out) or the should-close query answered "yes" and the teardown.  Every iteration is a
should-close query answered "no" followed by, in this order: glClearColor, glClear,
glUseProgram, glBindVertexArray(VAO), one draw call, glBindVertexArray(0),
glfwSwapBuffers, glfwPollEvents.  The draw call is glDrawArrays(GL_TRIANGLES, 0, 3) in
the triangle program and glDrawElements(GL_TRIANGLES, 6, GL_UNSIGNED_INT, 0) in the
quadrilateral program.  The loop body appends exactly these calls to any log. -/
theorem frame_loop_iteration_order (o : Outcome) (fuel : Nat) (hi : o.glfwInit = true)
    (hw : o.window = true) :
    ((∀ l, (Quad.frame o).run l =
        ((), { calls := l.calls ++
                 [.glClearColor 0.0 0.34 0.57 1.0, .glClear .GL_COLOR_BUFFER_BIT,
                  .glUseProgram o.shader_program, .glBindVertexArray o.VAO,
                  .glDrawElements .GL_TRIANGLES 6 .GL_UNSIGNED_INT 0, .glBindVertexArray 0,
                  .glfwSwapBuffers, .glfwPollEvents],
               out := l.out })) ∧
      (Quad.setupCalls o).filter Call.isDraw = [] ∧
      ∃ n tail, (Quad.run o fuel).2.calls =
          Quad.setupCalls o ++
            iterations
              [.glClearColor 0.0 0.34 0.57 1.0, .glClear .GL_COLOR_BUFFER_BIT,
               .glUseProgram o.shader_program, .glBindVertexArray o.VAO,
               .glDrawElements .GL_TRIANGLES 6 .GL_UNSIGNED_INT 0, .glBindVertexArray 0,
               .glfwSwapBuffers, .glfwPollEvents] n ++ tail ∧
        (tail = [] ∨ tail = .glfwWindowShouldClose true :: Quad.teardownCalls o) ∧
        tail.filter Call.isDraw = []) ∧
    ((∀ l, (Triangle.frame o).run l =
        ((), { calls := l.calls ++
                 [.glClearColor 0.0 0.34 0.57 1.0, .glClear .GL_COLOR_BUFFER_BIT,
                  .glUseProgram o.shader_program, .glBindVertexArray o.VAO,
                  .glDrawArrays .GL_TRIANGLES 0 3, .glBindVertexArray 0,
                  .glfwSwapBuffers, .glfwPollEvents],
               out := l.out })) ∧
      (Triangle.setupCalls o).filter Call.isDraw = [] ∧
      ∃ n tail, (Triangle.run o fuel).2.calls =
          Triangle.setupCalls o ++
            iterations
              [.glClearColor 0.0 0.34 0.57 1.0, .glClear .GL_COLOR_BUFFER_BIT,
               .glUseProgram o.shader_program, .glBindVertexArray o.VAO,
               .glDrawArrays .GL_TRIANGLES 0 3, .glBindVertexArray 0,
               .glfwSwapBuffers, .glfwPollEvents] n ++ tail ∧
        (tail = [] ∨ tail = .glfwWindowShouldClose true :: Triangle.teardownCalls o) ∧
        tail.filter Call.isDraw = []) := by
  constructor
  · refine ⟨fun l => quad_frame_run o l, quad_filter_setupCalls_draw o, ?_⟩
    rcases close_cases o fuel with ⟨n, hn, hc⟩ | ho
    · refine ⟨n, .glfwWindowShouldClose true :: Quad.teardownCalls o, ?_, Or.inr rfl, ?_⟩
      · rw [quad_run_closed o fuel n hi hw hc hn]
        simp [Quad.frameCalls]
      · simp [Quad.teardownCalls, Call.isDraw]
    · refine ⟨fuel, [], ?_, Or.inl rfl, rfl⟩
      rw [quad_run_open o fuel hi hw ho]
      simp [Quad.frameCalls]
  · refine ⟨fun l => triangle_frame_run o l, triangle_filter_setupCalls_draw o, ?_⟩
    rcases close_cases o fuel with ⟨n, hn, hc⟩ | ho
    · refine ⟨n, .glfwWindowShouldClose true :: Triangle.teardownCalls o, ?_, Or.inr rfl, ?_⟩
      · rw [triangle_run_closed o fuel n hi hw hc hn]
        simp [Triangle.frameCalls]
      · simp [Triangle.teardownCalls, Call.isDraw]
    · refine ⟨fuel, [], ?_, Or.inl rfl, rfl⟩
      rw [triangle_run_open o fuel hi hw ho]
      simp [Triangle.frameCalls]

/-- Witness for C6: the sample outcome, fuel 3. -/
theorem frame_loop_iteration_order_at_sample :
    sampleOutcome.glfwInit = true ∧ sampleOutcome.window = true ∧
    (Quad.setupCalls sampleOutcome).filter Call.isDraw = [] ∧
    (Triangle.setupCalls sampleOutcome).filter Call.isDraw = [] :=
  ⟨rfl, rfl, (frame_loop_iteration_order sampleOutcome 3 rfl rfl).1.2.1,
    (frame_loop_iteration_order sampleOutcome 3 rfl rfl).2.2.1⟩

/-! ## Draw calls and uploaded data -/

theorem quad_mem_run_calls (o : Outcome) (fuel : Nat) (c : Call)
    (h : c ∈ (Quad.run o fuel).2.calls) :
    c ∈ Quad.setupCalls o ∨ c = .glfwWindowShouldClose false ∨ c ∈ Quad.frameCalls o ∨
      c = .glfwWindowShouldClose true ∨ c ∈ Quad.teardownCalls o := by
  rcases quad_run_cases o fuel with ⟨_, e⟩ | ⟨_, _, e⟩ | ⟨_, _, n, _, _, e⟩ | ⟨_, _, _, e⟩ <;>
    rw [e] at h
  · simp at h
    subst h
    simp [Quad.setupCalls, Quad.bootstrapCalls]
  · simp only [List.mem_append, List.mem_singleton] at h
    rcases h with h | h
    · left
      simp only [Quad.setupCalls, List.mem_append]
      exact Or.inl (Or.inl (Or.inl h))
    · subst h
      simp [Quad.teardownCalls]
  · simp only [List.mem_append, List.mem_singleton] at h
    rcases h with ((h | h) | h) | h
    · exact Or.inl h
    · rcases mem_iterations _ _ _ h with h | h
      · exact Or.inr (Or.inl h)
      · exact Or.inr (Or.inr (Or.inl h))
    · exact Or.inr (Or.inr (Or.inr (Or.inl h)))
    · exact Or.inr (Or.inr (Or.inr (Or.inr h)))
  · simp only [List.mem_append] at h
    rcases h with h | h
    · exact Or.inl h
    · rcases mem_iterations _ _ _ h with h | h
      · exact Or.inr (Or.inl h)
      · exact Or.inr (Or.inr (Or.inl h))

theorem triangle_mem_run_calls (o : Outcome) (fuel : Nat) (c : Call)
    (h : c ∈ (Triangle.run o fuel).2.calls) :
    c ∈ Triangle.setupCalls o ∨ c = .glfwWindowShouldClose false ∨
      c ∈ Triangle.frameCalls o ∨ c = .glfwWindowShouldClose true ∨
      c ∈ Triangle.teardownCalls o := by
  rcases triangle_run_cases o fuel with ⟨_, e⟩ | ⟨_, _, e⟩ | ⟨_, _, n, _, _, e⟩ |
    ⟨_, _, _, e⟩ <;> rw [e] at h
  · simp at h
    subst h
    simp [Triangle.setupCalls, Triangle.bootstrapCalls]
  · simp only [List.mem_append, List.mem_singleton] at h
    rcases h with h | h
    · left
      simp only [Triangle.setupCalls, List.mem_append]
      exact Or.inl (Or.inl (Or.inl h))
    · subst h
      simp [Triangle.teardownCalls]
  · simp only [List.mem_append, List.mem_singleton] at h
    rcases h with ((h | h) | h) | h
    · exact Or.inl h
    · rcases mem_iterations _ _ _ h with h | h
      · exact Or.inr (Or.inl h)
      · exact Or.inr (Or.inr (Or.inl h))
    · exact Or.inr (Or.inr (Or.inr (Or.inl h)))
    · exact Or.inr (Or.inr (Or.inr (Or.inr h)))
  · simp only [List.mem_append] at h
    rcases h with h | h
    · exact Or.inl h
    · rcases mem_iterations _ _ _ h with h | h
      · exact Or.inr (Or.inl h)
      · exact Or.inr (Or.inr (Or.inl h))

/-- A call of a run that satisfies `p` is among the calls satisfying `p` of the set-up,
of one loop iteration or of the end of the run. -/
theorem quad_mem_run_filter (p : Call → Bool) (o : Outcome) (fuel : Nat) (c : Call)
    (h : c ∈ (Quad.run o fuel).2.calls) (hp : p c = true) :
    c ∈ (Quad.setupCalls o).filter p ∨
      c ∈ (.glfwWindowShouldClose false :: Quad.frameCalls o ++
            .glfwWindowShouldClose true :: Quad.teardownCalls o).filter p := by
  rcases quad_mem_run_calls o fuel c h with h | h | h | h | h
  · exact Or.inl (List.mem_filter.mpr ⟨h, hp⟩)
  all_goals exact Or.inr (List.mem_filter.mpr ⟨by simp [h], hp⟩)

theorem triangle_mem_run_filter (p : Call → Bool) (o : Outcome) (fuel : Nat) (c : Call)
    (h : c ∈ (Triangle.run o fuel).2.calls) (hp : p c = true) :
    c ∈ (Triangle.setupCalls o).filter p ∨
      c ∈ (.glfwWindowShouldClose false :: Triangle.frameCalls o ++
            .glfwWindowShouldClose true :: Triangle.teardownCalls o).filter p := by
  rcases triangle_mem_run_calls o fuel c h with h | h | h | h | h
  · exact Or.inl (List.mem_filter.mpr ⟨h, hp⟩)
  all_goals exact Or.inr (List.mem_filter.mpr ⟨by simp [h], hp⟩)

theorem quad_filter_setupCalls_attrib (o : Outcome) :
    (Quad.setupCalls o).filter Call.isAttribPointer =
      [.glVertexAttribPointer 0 3 .GL_FLOAT false 12 0] := by
  cases hv : o.vertex_success <;> cases hf : o.fragment_success <;> cases hl : o.link_success <;>
    simp [Quad.setupCalls, Quad.bootstrapCalls, Quad.hintCalls, Quad.uploadCalls, shaderCalls,
      Call.isAttribPointer, hv, hf, hl]

theorem triangle_filter_setupCalls_attrib (o : Outcome) :
    (Triangle.setupCalls o).filter Call.isAttribPointer =
      [.glVertexAttribPointer 0 3 .GL_FLOAT false 12 0] := by
  cases hv : o.vertex_success <;> cases hf : o.fragment_success <;> cases hl : o.link_success <;>
    simp [Triangle.setupCalls, Triangle.bootstrapCalls, Triangle.hintCalls,
      Triangle.uploadCalls, shaderCalls, Call.isAttribPointer, hv, hf, hl]

/-- C10: every entry of the quadrilateral index list is below the vertex count 4; the
float arrays hold exactly 3 floats per vertex (12 for 4 vertices, 9 for 3); and in
every run every draw call of the quadrilateral program is
glDrawElements(GL_TRIANGLES, 6, GL_UNSIGNED_INT, 0) with 6 the length of the index
list, every draw call of the triangle program is glDrawArrays(GL_TRIANGLES, 0, 3) with
3 the vertex count, and every attribute pointer set is attribute 0 with 3 float
components, stride 3 floats and offset 0. -/
theorem draws_stay_inside_uploaded_data (o : Outcome) (fuel : Nat) :
    (∀ i, i ∈ Quad.indices → i < vertexCount Quad.vertices) ∧
    vertexCount Quad.vertices = 4 ∧ Quad.vertices.length = 3 * 4 ∧
    Quad.indices.length = 6 ∧
    vertexCount Triangle.triangle = 3 ∧ Triangle.triangle.length = 3 * 3 ∧
    (∀ c, c ∈ (Quad.run o fuel).2.calls → c.isDraw = true →
      c = .glDrawElements .GL_TRIANGLES Quad.indices.length .GL_UNSIGNED_INT 0) ∧
    (∀ c, c ∈ (Triangle.run o fuel).2.calls → c.isDraw = true →
      c = .glDrawArrays .GL_TRIANGLES 0 (vertexCount Triangle.triangle)) ∧
    (∀ index size kind normalized stride pointer,
      (.glVertexAttribPointer index size kind normalized stride pointer ∈
          (Quad.run o fuel).2.calls ∨
        .glVertexAttribPointer index size kind normalized stride pointer ∈
          (Triangle.run o fuel).2.calls) →
      index = 0 ∧ size = 3 ∧ kind = .GL_FLOAT ∧ stride = 3 * sizeof_float ∧ pointer = 0) := by
  refine ⟨by decide, by simp [vertexCount, Quad.vertices],
    by simp [Quad.vertices], by simp [Quad.indices],
    by simp [vertexCount, Triangle.triangle], by simp [Triangle.triangle], ?_, ?_, ?_⟩
  · intro c hc hd
    rcases quad_mem_run_filter Call.isDraw o fuel c hc hd with h | h
    · rw [quad_filter_setupCalls_draw] at h; simp at h
    · simpa [Quad.frameCalls, Quad.teardownCalls, Call.isDraw, Quad.indices] using h
  · intro c hc hd
    rcases triangle_mem_run_filter Call.isDraw o fuel c hc hd with h | h
    · rw [triangle_filter_setupCalls_draw] at h; simp at h
    · simpa [Triangle.frameCalls, Triangle.teardownCalls, Call.isDraw, vertexCount,
        Triangle.triangle] using h
  · intro index size kind normalized stride pointer h
    rcases h with h | h
    · rcases quad_mem_run_filter Call.isAttribPointer o fuel _ h rfl with h | h
      · rw [quad_filter_setupCalls_attrib] at h
        simp [sizeof_float] at h ⊢
        tauto
      · simp [Quad.frameCalls, Quad.teardownCalls, Call.isAttribPointer] at h
    · rcases triangle_mem_run_filter Call.isAttribPointer o fuel _ h rfl with h | h
      · rw [triangle_filter_setupCalls_attrib] at h
        simp [sizeof_float] at h ⊢
        tauto
      · simp [Triangle.frameCalls, Triangle.teardownCalls, Call.isAttribPointer] at h

/-! ## Shader stage failures -/

theorem filter_iterations_all (p : Call → Bool) (body : List Call)
    (hq : p (.glfwWindowShouldClose false) = true) (hb : body.filter p = body) (n : Nat) :
    (iterations body n).filter p = iterations body n := by
  induction n with
  | zero => simp [iterations]
  | succ n ih => simp only [iterations, List.filter_cons, hq, if_true, List.filter_append, hb, ih]

theorem quad_filter_setupCalls_notInfoLog (o : Outcome) :
    (Quad.setupCalls o).filter Call.notInfoLog = Quad.setupCalls o.allSucceed := by
  cases hv : o.vertex_success <;> cases hf : o.fragment_success <;> cases hl : o.link_success <;>
    simp [Quad.setupCalls, Quad.bootstrapCalls, Quad.hintCalls, Quad.uploadCalls, shaderCalls,
      Call.notInfoLog, Call.isInfoLog, Outcome.allSucceed, hv, hf, hl]

theorem quad_filter_setupCalls_infoLog (o : Outcome) :
    (Quad.setupCalls o).filter Call.isInfoLog =
      (if o.vertex_success then [] else [.glGetShaderInfoLog o.vertex_shader 512]) ++
      (if o.fragment_success then [] else [.glGetShaderInfoLog o.fragment_shader 512]) ++
      (if o.link_success then [] else [.glGetProgramInfoLog o.shader_program 512]) := by
  cases hv : o.vertex_success <;> cases hf : o.fragment_success <;> cases hl : o.link_success <;>
    simp [Quad.setupCalls, Quad.bootstrapCalls, Quad.hintCalls, Quad.uploadCalls, shaderCalls,
      Call.isInfoLog, hv, hf, hl]

theorem quad_filter_setupCalls_shaderDelete (o : Outcome) :
    (Quad.setupCalls o).filter Call.isShaderDelete =
      [.glDeleteShader o.vertex_shader, .glDeleteShader o.fragment_shader] := by
  cases hv : o.vertex_success <;> cases hf : o.fragment_success <;> cases hl : o.link_success <;>
    simp [Quad.setupCalls, Quad.bootstrapCalls, Quad.hintCalls, Quad.uploadCalls, shaderCalls,
      Call.isShaderDelete, hv, hf, hl]

theorem triangle_filter_setupCalls_notInfoLog (o : Outcome) :
    (Triangle.setupCalls o).filter Call.notInfoLog = Triangle.setupCalls o.allSucceed := by
  cases hv : o.vertex_success <;> cases hf : o.fragment_success <;> cases hl : o.link_success <;>
    simp [Triangle.setupCalls, Triangle.bootstrapCalls, Triangle.hintCalls,
      Triangle.uploadCalls, shaderCalls, Call.notInfoLog, Call.isInfoLog, Outcome.allSucceed,
      hv, hf, hl]

theorem triangle_filter_setupCalls_infoLog (o : Outcome) :
    (Triangle.setupCalls o).filter Call.isInfoLog =
      (if o.vertex_success then [] else [.glGetShaderInfoLog o.vertex_shader 512]) ++
      (if o.fragment_success then [] else [.glGetShaderInfoLog o.fragment_shader 512]) ++
      (if o.link_success then [] else [.glGetProgramInfoLog o.shader_program 512]) := by
  cases hv : o.vertex_success <;> cases hf : o.fragment_success <;> cases hl : o.link_success <;>
    simp [Triangle.setupCalls, Triangle.bootstrapCalls, Triangle.hintCalls,
      Triangle.uploadCalls, shaderCalls, Call.isInfoLog, hv, hf, hl]

theorem triangle_filter_setupCalls_shaderDelete (o : Outcome) :
    (Triangle.setupCalls o).filter Call.isShaderDelete =
      [.glDeleteShader o.vertex_shader, .glDeleteShader o.fragment_shader] := by
  cases hv : o.vertex_success <;> cases hf : o.fragment_success <;> cases hl : o.link_success <;>
    simp [Triangle.setupCalls, Triangle.bootstrapCalls, Triangle.hintCalls,
      Triangle.uploadCalls, shaderCalls, Call.isShaderDelete, hv, hf, hl]

/-- The calls of a run in which the window was created: set-up, iterations, and the
end of the run, for some number of iterations. -/
theorem quad_run_created (o : Outcome) (fuel : Nat) :
    ∃ n tail, (tail = [] ∨ tail = .glfwWindowShouldClose true :: Quad.teardownCalls o) ∧
      (∀ o', o'.glfwInit = true → o'.window = true → o'.shouldClose = o.shouldClose →
        (Quad.run o' fuel).2 =
          { calls := Quad.setupCalls o' ++ iterations (Quad.frameCalls o') n ++
              (if tail = [] then [] else
                .glfwWindowShouldClose true :: Quad.teardownCalls o'),
            out := Quad.setupOut o' }) := by
  rcases close_cases o fuel with ⟨n, hn, hc⟩ | ho
  · refine ⟨n, _, Or.inr rfl, ?_⟩
    intro o' hi' hw' hs
    have hc' : FirstCloseAt o' n := by unfold FirstCloseAt; rw [hs]; exact hc
    rw [quad_run_closed o' fuel n hi' hw' hc' hn]
    simp
  · refine ⟨fuel, [], Or.inl rfl, ?_⟩
    intro o' hi' hw' hs
    rw [quad_run_open o' fuel hi' hw' (by rw [hs]; exact ho)]
    simp

theorem triangle_run_created (o : Outcome) (fuel : Nat) :
    ∃ n tail, (tail = [] ∨ tail = .glfwWindowShouldClose true :: Triangle.teardownCalls o) ∧
      (∀ o', o'.glfwInit = true → o'.window = true → o'.shouldClose = o.shouldClose →
        (Triangle.run o' fuel).2 =
          { calls := Triangle.setupCalls o' ++ iterations (Triangle.frameCalls o') n ++
              (if tail = [] then [] else
                .glfwWindowShouldClose true :: Triangle.teardownCalls o'),
            out := Triangle.setupOut o' }) := by
  rcases close_cases o fuel with ⟨n, hn, hc⟩ | ho
  · refine ⟨n, _, Or.inr rfl, ?_⟩
    intro o' hi' hw' hs
    have hc' : FirstCloseAt o' n := by unfold FirstCloseAt; rw [hs]; exact hc
    rw [triangle_run_closed o' fuel n hi' hw' hc' hn]
    simp
  · refine ⟨fuel, [], Or.inl rfl, ?_⟩
    intro o' hi' hw' hs
    rw [triangle_run_open o' fuel hi' hw' (by rw [hs]; exact ho)]
    simp

theorem info_log_length (bufSize : Nat) (log : List Char) :
    (info_log bufSize log).length ≤ bufSize - 1 := by
  simp [info_log, String.length]

theorem quad_run_filter (p : Call → Bool) (o : Outcome) (fuel : Nat) (hi : o.glfwInit = true)
    (hw : o.window = true) (hq : p (.glfwWindowShouldClose false) = false)
    (hb : (Quad.frameCalls o).filter p = [])
    (ht : (.glfwWindowShouldClose true :: Quad.teardownCalls o).filter p = []) :
    (Quad.run o fuel).2.calls.filter p = (Quad.setupCalls o).filter p := by
  obtain ⟨n, tail, ht', h⟩ := quad_run_created o fuel
  rw [h o hi hw rfl]
  simp only [List.filter_append, filter_iterations_nil p _ hq hb]
  rcases ht' with h1 | h1
  · simp [h1]
  · rw [if_neg (by simp [h1]), ht]; simp

theorem triangle_run_filter (p : Call → Bool) (o : Outcome) (fuel : Nat)
    (hi : o.glfwInit = true) (hw : o.window = true)
    (hq : p (.glfwWindowShouldClose false) = false)
    (hb : (Triangle.frameCalls o).filter p = [])
    (ht : (.glfwWindowShouldClose true :: Triangle.teardownCalls o).filter p = []) :
    (Triangle.run o fuel).2.calls.filter p = (Triangle.setupCalls o).filter p := by
  obtain ⟨n, tail, ht', h⟩ := triangle_run_created o fuel
  rw [h o hi hw rfl]
  simp only [List.filter_append, filter_iterations_nil p _ hq hb]
  rcases ht' with h1 | h1
  · simp [h1]
  · rw [if_neg (by simp [h1]), ht]; simp

theorem quad_run_filter_notInfoLog (o : Outcome) (fuel : Nat) (hi : o.glfwInit = true)
    (hw : o.window = true) :
    (Quad.run o fuel).2.calls.filter Call.notInfoLog = (Quad.run o.allSucceed fuel).2.calls := by
  obtain ⟨n, tail, ht', h⟩ := quad_run_created o fuel
  rw [h o hi hw rfl, h o.allSucceed hi hw rfl]
  simp only [List.filter_append, quad_filter_setupCalls_notInfoLog]
  rw [filter_iterations_all Call.notInfoLog _ rfl
    (by simp [Quad.frameCalls, Call.notInfoLog, Call.isInfoLog])]
  rcases ht' with h1 | h1
  · simp [h1, Quad.frameCalls, Outcome.allSucceed]
  · simp [h1, Quad.frameCalls, Quad.teardownCalls, Outcome.allSucceed, Call.notInfoLog,
      Call.isInfoLog]

theorem triangle_run_filter_notInfoLog (o : Outcome) (fuel : Nat) (hi : o.glfwInit = true)
    (hw : o.window = true) :
    (Triangle.run o fuel).2.calls.filter Call.notInfoLog =
      (Triangle.run o.allSucceed fuel).2.calls := by
  obtain ⟨n, tail, ht', h⟩ := triangle_run_created o fuel
  rw [h o hi hw rfl, h o.allSucceed hi hw rfl]
  simp only [List.filter_append, triangle_filter_setupCalls_notInfoLog]
  rw [filter_iterations_all Call.notInfoLog _ rfl
    (by simp [Triangle.frameCalls, Call.notInfoLog, Call.isInfoLog])]
  rcases ht' with h1 | h1
  · simp [h1, Triangle.frameCalls, Outcome.allSucceed]
  · simp [h1, Triangle.frameCalls, Triangle.teardownCalls, Outcome.allSucceed,
      Call.notInfoLog, Call.isInfoLog]

theorem quad_run_enters_loop (o : Outcome) (fuel : Nat) (hi : o.glfwInit = true)
    (hw : o.window = true) (hf : 0 < fuel) :
    ∃ rest, (Quad.run o fuel).2.calls =
      Quad.setupCalls o ++ .glfwWindowShouldClose (o.shouldClose 0) :: rest := by
  rcases close_cases o fuel with ⟨n, hn, hc⟩ | ho
  · rw [quad_run_closed o fuel n hi hw hc hn]
    cases n with
    | zero => exact ⟨Quad.teardownCalls o, by simp [iterations, hc.2]⟩
    | succ n =>
      exact ⟨Quad.frameCalls o ++ iterations (Quad.frameCalls o) n ++
        [.glfwWindowShouldClose true] ++ Quad.teardownCalls o,
        by simp [iterations, hc.1 0 (by omega)]⟩
  · rw [quad_run_open o fuel hi hw ho]
    obtain ⟨f, rfl⟩ : ∃ f, fuel = f + 1 := ⟨fuel - 1, by omega⟩
    exact ⟨Quad.frameCalls o ++ iterations (Quad.frameCalls o) f,
      by simp [iterations, ho 0 (by omega)]⟩

theorem triangle_run_enters_loop (o : Outcome) (fuel : Nat) (hi : o.glfwInit = true)
    (hw : o.window = true) (hf : 0 < fuel) :
    ∃ rest, (Triangle.run o fuel).2.calls =
      Triangle.setupCalls o ++ .glfwWindowShouldClose (o.shouldClose 0) :: rest := by
  rcases close_cases o fuel with ⟨n, hn, hc⟩ | ho
  · rw [triangle_run_closed o fuel n hi hw hc hn]
    cases n with
    | zero => exact ⟨Triangle.teardownCalls o, by simp [iterations, hc.2]⟩
    | succ n =>
      exact ⟨Triangle.frameCalls o ++ iterations (Triangle.frameCalls o) n ++
        [.glfwWindowShouldClose true] ++ Triangle.teardownCalls o,
        by simp [iterations, hc.1 0 (by omega)]⟩
  · rw [triangle_run_open o fuel hi hw ho]
    obtain ⟨f, rfl⟩ : ∃ f, fuel = f + 1 := ⟨fuel - 1, by omega⟩
    exact ⟨Triangle.frameCalls o ++ iterations (Triangle.frameCalls o) f,
      by simp [iterations, ho 0 (by omega)]⟩

theorem shaderCalls_end (o : Outcome) :
    shaderCalls o = shaderCallsBeforeLink o ++
      ([.glLinkProgram o.shader_program,
        .glGetProgramiv o.shader_program .GL_LINK_STATUS] ++
       (if o.link_success then [] else [.glGetProgramInfoLog o.shader_program 512]) ++
       [.glDeleteShader o.vertex_shader, .glDeleteShader o.fragment_shader]) := by
  simp [shaderCalls, shaderCallsBeforeLink]

theorem shaderCallsBeforeLink_noDelete (o : Outcome) :
    (shaderCallsBeforeLink o).filter Call.isShaderDelete = [] := by
  cases hv : o.vertex_success <;> cases hf : o.fragment_success <;>
    simp [shaderCallsBeforeLink, Call.isShaderDelete, hv, hf]

theorem quad_run_out (o : Outcome) (fuel : Nat) (hi : o.glfwInit = true)
    (hw : o.window = true) : (Quad.run o fuel).2.out = Quad.setupOut o := by
  obtain ⟨n, tail, _, h⟩ := quad_run_created o fuel
  rw [h o hi hw rfl]

theorem triangle_run_out (o : Outcome) (fuel : Nat) (hi : o.glfwInit = true)
    (hw : o.window = true) : (Triangle.run o fuel).2.out = Triangle.setupOut o := by
  obtain ⟨n, tail, _, h⟩ := triangle_run_created o fuel
  rw [h o hi hw rfl]

/-- Counterexample for C8 as stated: with everything else equal, the run in which the vertex
shader fails to compile issues a graphics call, glGetShaderInfoLog(vertex_shader, 512),
that the run in which it compiles does not issue, in either program; the two logs of
calls differ. -/
theorem shader_status_changes_calls :
    (Call.glGetShaderInfoLog 1 512).isDevice = true ∧
    vertexFailOutcome.allSucceed = sampleOutcome.allSucceed ∧
    (.glGetShaderInfoLog 1 512 ∈ (Quad.run vertexFailOutcome 3).2.calls ∧
      .glGetShaderInfoLog 1 512 ∉ (Quad.run sampleOutcome 3).2.calls ∧
      (Quad.run vertexFailOutcome 3).2.calls ≠ (Quad.run sampleOutcome 3).2.calls) ∧
    (.glGetShaderInfoLog 1 512 ∈ (Triangle.run vertexFailOutcome 3).2.calls ∧
      .glGetShaderInfoLog 1 512 ∉ (Triangle.run sampleOutcome 3).2.calls ∧
      (Triangle.run vertexFailOutcome 3).2.calls ≠ (Triangle.run sampleOutcome 3).2.calls) := by
  have key : ∀ (a b : List Call), (a.filter Call.isInfoLog = [.glGetShaderInfoLog 1 512]) →
      b.filter Call.isInfoLog = [] →
      .glGetShaderInfoLog 1 512 ∈ a ∧ .glGetShaderInfoLog 1 512 ∉ b ∧ a ≠ b := by
    intro a b ha hb
    have h1 : Call.glGetShaderInfoLog 1 512 ∈ a := by
      have : Call.glGetShaderInfoLog 1 512 ∈ a.filter Call.isInfoLog := by rw [ha]; simp
      exact (List.mem_filter.mp this).1
    have h2 : Call.glGetShaderInfoLog 1 512 ∉ b := by
      intro h
      have : Call.glGetShaderInfoLog 1 512 ∈ b.filter Call.isInfoLog :=
        List.mem_filter.mpr ⟨h, rfl⟩
      rw [hb] at this
      simp at this
    exact ⟨h1, h2, fun e => h2 (e ▸ h1)⟩
  refine ⟨rfl, rfl, key _ _ ?_ ?_, key _ _ ?_ ?_⟩
  · rw [quad_run_filter Call.isInfoLog vertexFailOutcome 3 rfl rfl rfl
      (by simp [Quad.frameCalls, Call.isInfoLog])
      (by simp [Quad.teardownCalls, Call.isInfoLog]), quad_filter_setupCalls_infoLog]
    simp [vertexFailOutcome, sampleOutcome]
  · rw [quad_run_filter Call.isInfoLog sampleOutcome 3 rfl rfl rfl
      (by simp [Quad.frameCalls, Call.isInfoLog])
      (by simp [Quad.teardownCalls, Call.isInfoLog]), quad_filter_setupCalls_infoLog]
    simp [sampleOutcome]
  · rw [triangle_run_filter Call.isInfoLog vertexFailOutcome 3 rfl rfl rfl
      (by simp [Triangle.frameCalls, Call.isInfoLog])
      (by simp [Triangle.teardownCalls, Call.isInfoLog]), triangle_filter_setupCalls_infoLog]
    simp [vertexFailOutcome, sampleOutcome]
  · rw [triangle_run_filter Call.isInfoLog sampleOutcome 3 rfl rfl rfl
      (by simp [Triangle.frameCalls, Call.isInfoLog])
      (by simp [Triangle.teardownCalls, Call.isInfoLog]), triangle_filter_setupCalls_infoLog]
    simp [sampleOutcome]

/-- C8 (amended): in a run in which the window was created, whatever the three shader
stages report, each program issues the calls of the run in which all three succeed,
plus one info-log query with buffer size 512 for each failed stage and none for a
successful stage.  Both shader objects are deleted once, right after the link status
was read (and its log, when linking failed), no program is deleted, and the frame loop
is entered next.  The output holds one message per failed stage, carrying at most 511
characters of the stage's log, and none for a successful stage. -/
theorem shader_failures_add_info_log_queries (o : Outcome) (fuel : Nat)
    (hi : o.glfwInit = true) (hw : o.window = true) :
    ((Quad.run o fuel).2.calls.filter Call.notInfoLog = (Quad.run o.allSucceed fuel).2.calls ∧
      (Quad.run o fuel).2.calls.filter Call.isInfoLog =
        (if o.vertex_success then [] else [.glGetShaderInfoLog o.vertex_shader 512]) ++
        (if o.fragment_success then [] else [.glGetShaderInfoLog o.fragment_shader 512]) ++
        (if o.link_success then [] else [.glGetProgramInfoLog o.shader_program 512]) ∧
      (Quad.run o fuel).2.calls.filter Call.isShaderDelete =
        [.glDeleteShader o.vertex_shader, .glDeleteShader o.fragment_shader] ∧
      (0 < fuel → ∃ pre rest, pre.filter Call.isShaderDelete = [] ∧
        (Quad.run o fuel).2.calls =
          pre ++ [.glLinkProgram o.shader_program,
                  .glGetProgramiv o.shader_program .GL_LINK_STATUS] ++
            (if o.link_success then [] else [.glGetProgramInfoLog o.shader_program 512]) ++
            [.glDeleteShader o.vertex_shader, .glDeleteShader o.fragment_shader,
             .glfwWindowShouldClose (o.shouldClose 0)] ++ rest) ∧
      (Quad.run o fuel).2.out =
        (if o.gladLoadGLLoader then [] else ["Failed to initialize GLAD\n"]) ++
        ((if o.vertex_success then [] else
            ["ERROR::SHADER::VERTEX::COMPILATION_FAILED\n" ++ info_log 512 o.vertex_log ++
              "\n"]) ++
         (if o.fragment_success then [] else
            ["ERROR::SHADER::FRAGMENT::COMPILATION_FAILED\n" ++
              info_log 512 o.fragment_log ++ "\n"]) ++
         (if o.link_success then [] else
            ["ERROR::SHADER::PROGRAM::LINKING_FAILED\n" ++ info_log 512 o.program_log ++
              "\n"]))) ∧
    ((Triangle.run o fuel).2.calls.filter Call.notInfoLog =
        (Triangle.run o.allSucceed fuel).2.calls ∧
      (Triangle.run o fuel).2.calls.filter Call.isInfoLog =
        (if o.vertex_success then [] else [.glGetShaderInfoLog o.vertex_shader 512]) ++
        (if o.fragment_success then [] else [.glGetShaderInfoLog o.fragment_shader 512]) ++
        (if o.link_success then [] else [.glGetProgramInfoLog o.shader_program 512]) ∧
      (Triangle.run o fuel).2.calls.filter Call.isShaderDelete =
        [.glDeleteShader o.vertex_shader, .glDeleteShader o.fragment_shader] ∧
      (0 < fuel → ∃ pre rest, pre.filter Call.isShaderDelete = [] ∧
        (Triangle.run o fuel).2.calls =
          pre ++ [.glLinkProgram o.shader_program,
                  .glGetProgramiv o.shader_program .GL_LINK_STATUS] ++
            (if o.link_success then [] else [.glGetProgramInfoLog o.shader_program 512]) ++
            [.glDeleteShader o.vertex_shader, .glDeleteShader o.fragment_shader,
             .glfwWindowShouldClose (o.shouldClose 0)] ++ rest) ∧
      (Triangle.run o fuel).2.out =
        (if o.gladLoadGLLoader then [] else ["Failed to initialize GLAD\n"]) ++
        ((if o.vertex_success then [] else
            ["ERROR::SHADER::VERTEX::COMPILATION_FAILED\n" ++ info_log 512 o.vertex_log ++
              "\n"]) ++
         (if o.fragment_success then [] else
            ["ERROR::SHADER::FRAGMENT::COMPILATION_FAILED\n" ++
              info_log 512 o.fragment_log ++ "\n"]) ++
         (if o.link_success then [] else
            ["ERROR::SHADER::PROGRAM::LINKING_FAILED\n" ++ info_log 512 o.program_log ++
              "\n"]))) ∧
    (∀ log, (info_log 512 log).length ≤ 511) := by
  refine ⟨⟨quad_run_filter_notInfoLog o fuel hi hw, ?_, ?_, ?_, ?_⟩,
    ⟨triangle_run_filter_notInfoLog o fuel hi hw, ?_, ?_, ?_, ?_⟩,
    fun log => info_log_length 512 log⟩
  · rw [quad_run_filter Call.isInfoLog o fuel hi hw rfl
      (by simp [Quad.frameCalls, Call.isInfoLog])
      (by simp [Quad.teardownCalls, Call.isInfoLog]), quad_filter_setupCalls_infoLog]
  · rw [quad_run_filter Call.isShaderDelete o fuel hi hw rfl
      (by simp [Quad.frameCalls, Call.isShaderDelete])
      (by simp [Quad.teardownCalls, Call.isShaderDelete]), quad_filter_setupCalls_shaderDelete]
  · intro hf
    obtain ⟨rest, h⟩ := quad_run_enters_loop o fuel hi hw hf
    refine ⟨Quad.bootstrapCalls ++
      [.glfwMakeContextCurrent, .gladLoadGLLoader, .glViewport 0 0 1280 720] ++
      Quad.uploadCalls o ++ shaderCallsBeforeLink o, rest, ?_, ?_⟩
    · simp only [List.filter_append, shaderCallsBeforeLink_noDelete]
      simp [Quad.bootstrapCalls, Quad.hintCalls, Quad.uploadCalls, Call.isShaderDelete]
    · rw [h, Quad.setupCalls, shaderCalls_end]
      simp
  · rw [quad_run_out o fuel hi hw]
    simp [Quad.setupOut, shaderOut]
  · rw [triangle_run_filter Call.isInfoLog o fuel hi hw rfl
      (by simp [Triangle.frameCalls, Call.isInfoLog])
      (by simp [Triangle.teardownCalls, Call.isInfoLog]), triangle_filter_setupCalls_infoLog]
  · rw [triangle_run_filter Call.isShaderDelete o fuel hi hw rfl
      (by simp [Triangle.frameCalls, Call.isShaderDelete])
      (by simp [Triangle.teardownCalls, Call.isShaderDelete]),
      triangle_filter_setupCalls_shaderDelete]
  · intro hf
    obtain ⟨rest, h⟩ := triangle_run_enters_loop o fuel hi hw hf
    refine ⟨Triangle.bootstrapCalls ++
      [.glfwMakeContextCurrent, .gladLoadGLLoader, .glViewport 0 0 1280 720] ++
      Triangle.uploadCalls o ++ shaderCallsBeforeLink o, rest, ?_, ?_⟩
    · simp only [List.filter_append, shaderCallsBeforeLink_noDelete]
      simp [Triangle.bootstrapCalls, Triangle.hintCalls, Triangle.uploadCalls,
        Call.isShaderDelete]
    · rw [h, Triangle.setupCalls, shaderCalls_end]
      simp
  · rw [triangle_run_out o fuel hi hw]
    simp [Triangle.setupOut, shaderOut]

/-- Witness for C8 (amended): the vertex shader fails to compile; fuel 3. -/
theorem shader_failures_add_info_log_queries_at_sample :
    vertexFailOutcome.glfwInit = true ∧ vertexFailOutcome.window = true ∧
    (Quad.run vertexFailOutcome 3).2.calls.filter Call.notInfoLog =
      (Quad.run vertexFailOutcome.allSucceed 3).2.calls ∧
    (Triangle.run vertexFailOutcome 3).2.calls.filter Call.notInfoLog =
      (Triangle.run vertexFailOutcome.allSucceed 3).2.calls :=
  ⟨rfl, rfl, (shader_failures_add_info_log_queries vertexFailOutcome 3 rfl rfl).1.1,
    (shader_failures_add_info_log_queries vertexFailOutcome 3 rfl rfl).2.1.1⟩

/-! ## Binding state at the draw calls -/

theorem step_untouched (s : GLState) (c : Call) (h : c.touchesState = false) :
    s.step c = s := by
  cases c <;> first | rfl | simp [Call.touchesState] at h

theorem exec_append (s : GLState) (xs ys : List Call) :
    s.exec (xs ++ ys) = (s.exec xs).exec ys := by
  simp [GLState.exec, List.foldl_append]

theorem drawStates_append (xs ys : List Call) :
    ∀ s : GLState, drawStates s (xs ++ ys) = drawStates s xs ++ drawStates (s.exec xs) ys := by
  induction xs with
  | nil => intro s; simp [drawStates, GLState.exec]
  | cons x xs ih => intro s; simp [drawStates, GLState.exec, ih]

theorem exec_untouched (cs : List Call) (h : cs.filter Call.touchesState = []) :
    ∀ s : GLState, s.exec cs = s := by
  induction cs with
  | nil => intro s; rfl
  | cons c cs ih =>
    intro s
    have hc : c.touchesState = false := by
      cases hc : c.touchesState
      · rfl
      · simp [List.filter, hc] at h
    have hcs : cs.filter Call.touchesState = [] := by simpa [List.filter, hc] using h
    simp only [GLState.exec, List.foldl_cons, step_untouched s c hc]
    exact ih hcs s

theorem drawStates_nil (cs : List Call) (h : cs.filter Call.isDraw = []) :
    ∀ s : GLState, drawStates s cs = [] := by
  induction cs with
  | nil => intro s; rfl
  | cons c cs ih =>
    intro s
    have hc : c.isDraw = false := by
      cases hc : c.isDraw
      · rfl
      · simp [List.filter, hc] at h
    have hcs : cs.filter Call.isDraw = [] := by simpa [List.filter, hc] using h
    simp [drawStates, hc, ih hcs]

theorem quad_uploaded_after_upload (o : Outcome) (h : FreshNames o) :
    Quad.Uploaded o (GLState.initial.exec (Quad.uploadCalls o)) := by
  obtain ⟨hv, hb, he, hne⟩ := h
  simp [Quad.Uploaded, Quad.uploadCalls, GLState.exec, GLState.step, GLState.modifyBoundArray,
    GLState.boundBuffer, GLState.initial, GLState.emptyArray, hv, hb, he, hne, Ne.symm hne,
    sizeof_float]

theorem quad_shaderCalls_untouched (o : Outcome) :
    (shaderCalls o).filter Call.touchesState = [] ∧ (shaderCalls o).filter Call.isDraw = [] := by
  cases hv : o.vertex_success <;> cases hf : o.fragment_success <;> cases hl : o.link_success <;>
    simp [shaderCalls, Call.touchesState, Call.isDraw, hv, hf, hl]

theorem quad_setup_state (o : Outcome) (h : FreshNames o) :
    Quad.Uploaded o (GLState.initial.exec (Quad.setupCalls o)) ∧
      drawStates GLState.initial (Quad.setupCalls o) = [] := by
  constructor
  · have h1 : GLState.initial.exec (Quad.bootstrapCalls ++
        [.glfwMakeContextCurrent, .gladLoadGLLoader, .glViewport 0 0 1280 720]) =
        GLState.initial :=
      exec_untouched _ (by simp [Quad.bootstrapCalls, Quad.hintCalls, Call.touchesState]) _
    rw [Quad.setupCalls, exec_append, exec_append, h1,
      exec_untouched _ (quad_shaderCalls_untouched o).1]
    exact quad_uploaded_after_upload o h
  · exact drawStates_nil _ (quad_filter_setupCalls_draw o) _

theorem quad_iteration_state (o : Outcome) (s : GLState) :
    drawStates s (.glfwWindowShouldClose false :: Quad.frameCalls o) =
        [{ s with vertexArrayBinding := o.VAO }] ∧
      s.exec (.glfwWindowShouldClose false :: Quad.frameCalls o) =
        { s with vertexArrayBinding := 0 } := by
  simp [drawStates, Quad.frameCalls, GLState.exec, GLState.step, Call.isDraw]

theorem quad_iterations_state (o : Outcome) (n : Nat) :
    ∀ s : GLState, Quad.Uploaded o s →
      (∀ s', s' ∈ drawStates s (iterations (Quad.frameCalls o) n) → Quad.DrawReady o s') ∧
      (drawStates s (iterations (Quad.frameCalls o) n)).length = n ∧
      Quad.Uploaded o (s.exec (iterations (Quad.frameCalls o) n)) := by
  induction n with
  | zero => intro s hs; simp [iterations, drawStates, GLState.exec, hs]
  | succ n ih =>
    intro s hs
    have e : iterations (Quad.frameCalls o) (n + 1) =
        (.glfwWindowShouldClose false :: Quad.frameCalls o) ++
          iterations (Quad.frameCalls o) n := by simp [iterations]
    obtain ⟨h1, h2⟩ := quad_iteration_state o s
    have hs' : Quad.Uploaded o { s with vertexArrayBinding := 0 } := hs
    obtain ⟨i1, i2, i3⟩ := ih _ hs'
    rw [e, drawStates_append, exec_append, h1, h2]
    refine ⟨?_, by simp [i2], i3⟩
    intro s' hm
    simp only [List.singleton_append, List.mem_cons] at hm
    rcases hm with hm | hm
    · subst hm
      exact ⟨rfl, hs⟩
    · exact i1 s' hm

theorem quad_filter_setupCalls_elementUnbind (o : Outcome) (he : o.EBO ≠ 0) :
    (Quad.setupCalls o).filter Call.isElementUnbind = [] := by
  cases hv : o.vertex_success <;> cases hf : o.fragment_success <;> cases hl : o.link_success <;>
    simp [Quad.setupCalls, Quad.bootstrapCalls, Quad.hintCalls, Quad.uploadCalls, shaderCalls,
      Call.isElementUnbind, he, hv, hf, hl]

/-- C9: in the quadrilateral program, with the names returned by glGenVertexArrays and
glGenBuffers non-zero and the two buffer names different, every draw call of every run
executes in a binding state where the bound vertex array is VAO, its element buffer is
EBO holding the 6 uploaded indices, and its enabled attribute 0 reads 3 float
components with stride 3 floats and offset 0 from VBO holding the 12 uploaded floats.
A run that is closed at query n has n such draw calls.  The set-up does issue
glBindBuffer(GL_ARRAY_BUFFER, 0), and no run issues
glBindBuffer(GL_ELEMENT_ARRAY_BUFFER, 0). -/
theorem quad_draw_sees_uploaded_geometry (o : Outcome) (fuel : Nat) (h : FreshNames o) :
    (∀ s, s ∈ drawStates GLState.initial (Quad.run o fuel).2.calls →
      s.vertexArrayBinding = o.VAO ∧
      (s.vertexArrays o.VAO).elementBuffer = o.EBO ∧
      s.buffers o.EBO = some (.uints Quad.indices) ∧
      (s.vertexArrays o.VAO).attrib 0 =
        some { buffer := o.VBO, size := 3, kind := .GL_FLOAT, normalized := false,
               stride := 3 * sizeof_float, pointer := 0 } ∧
      (s.vertexArrays o.VAO).enabled 0 = true ∧
      s.buffers o.VBO = some (.floats Quad.vertices)) ∧
    Quad.indices.length = 6 ∧ Quad.vertices.length = 12 ∧
    (∀ n, o.glfwInit = true → o.window = true → FirstCloseAt o n → n < fuel →
      (drawStates GLState.initial (Quad.run o fuel).2.calls).length = n) ∧
    (o.glfwInit = true → o.window = true →
      .glBindBuffer .GL_ARRAY_BUFFER 0 ∈ (Quad.run o fuel).2.calls) ∧
    (Quad.run o fuel).2.calls.filter Call.isElementUnbind = [] := by
  have htail : ∀ s : GLState,
      drawStates s (.glfwWindowShouldClose true :: Quad.teardownCalls o) = [] :=
    drawStates_nil _ (by simp [Quad.teardownCalls, Call.isDraw])
  obtain ⟨hu, hd⟩ := quad_setup_state o h
  have hclosed : ∀ n, drawStates GLState.initial
      (Quad.setupCalls o ++ iterations (Quad.frameCalls o) n ++
        [.glfwWindowShouldClose true] ++ Quad.teardownCalls o) =
      drawStates (GLState.initial.exec (Quad.setupCalls o)) (iterations (Quad.frameCalls o) n) := by
    intro n
    have e : Quad.setupCalls o ++ iterations (Quad.frameCalls o) n ++
        [.glfwWindowShouldClose true] ++ Quad.teardownCalls o =
        Quad.setupCalls o ++ (iterations (Quad.frameCalls o) n ++
          (.glfwWindowShouldClose true :: Quad.teardownCalls o)) := by simp
    rw [e, drawStates_append, drawStates_append, hd, htail]
    simp
  have hopen : ∀ n, drawStates GLState.initial
      (Quad.setupCalls o ++ iterations (Quad.frameCalls o) n) =
      drawStates (GLState.initial.exec (Quad.setupCalls o)) (iterations (Quad.frameCalls o) n) := by
    intro n
    rw [drawStates_append, hd]
    simp
  refine ⟨?_, by simp [Quad.indices], by simp [Quad.vertices], ?_, ?_, ?_⟩
  · intro s hs
    rcases quad_run_cases o fuel with ⟨_, e⟩ | ⟨_, _, e⟩ | ⟨_, _, n, _, _, e⟩ | ⟨_, _, _, e⟩ <;>
      rw [e] at hs
    · simp [drawStates, Call.isDraw] at hs
    · rw [drawStates_nil _ (by simp [Quad.bootstrapCalls, Quad.hintCalls, Call.isDraw])] at hs
      simp at hs
    · rw [hclosed n] at hs
      exact (quad_iterations_state o n _ hu).1 s hs
    · rw [hopen fuel] at hs
      exact (quad_iterations_state o fuel _ hu).1 s hs
  · intro n hi hw hc hf
    rw [quad_run_closed o fuel n hi hw hc hf, hclosed n]
    exact (quad_iterations_state o n _ hu).2.1
  · intro hi hw
    obtain ⟨n, tail, _, e⟩ := quad_run_created o fuel
    rw [e o hi hw rfl]
    simp [Quad.setupCalls, Quad.uploadCalls]
  · rcases quad_run_cases o fuel with ⟨_, e⟩ | ⟨_, _, e⟩ | ⟨hi, hw, _⟩ | ⟨hi, hw, _⟩
    · rw [e]; rfl
    · rw [e]; simp [Quad.bootstrapCalls, Quad.hintCalls, Call.isElementUnbind]
    · rw [quad_run_filter Call.isElementUnbind o fuel hi hw rfl
        (by simp [Quad.frameCalls, Call.isElementUnbind])
        (by simp [Quad.teardownCalls, Call.isElementUnbind]),
        quad_filter_setupCalls_elementUnbind o h.2.2.1]
    · rw [quad_run_filter Call.isElementUnbind o fuel hi hw rfl
        (by simp [Quad.frameCalls, Call.isElementUnbind])
        (by simp [Quad.teardownCalls, Call.isElementUnbind]),
        quad_filter_setupCalls_elementUnbind o h.2.2.1]

theorem sampleOutcome_freshNames : FreshNames sampleOutcome := by
  simp [FreshNames, sampleOutcome]

/-- Witness for C9: the sample outcome has two draw calls within fuel 3. -/
theorem quad_draw_sees_uploaded_geometry_at_sample :
    FreshNames sampleOutcome ∧
    (drawStates GLState.initial (Quad.run sampleOutcome 3).2.calls).length = 2 ∧
    (∀ s, s ∈ drawStates GLState.initial (Quad.run sampleOutcome 3).2.calls →
      (s.vertexArrays 1).elementBuffer = 2 ∧ s.buffers 2 = some (.uints [0, 1, 3, 1, 2, 3])) :=
  ⟨sampleOutcome_freshNames,
    (quad_draw_sees_uploaded_geometry sampleOutcome 3 sampleOutcome_freshNames).2.2.2.1 2
      rfl rfl sampleOutcome_firstClose (by decide),
    fun s hs =>
      let r := (quad_draw_sees_uploaded_geometry sampleOutcome 3 sampleOutcome_freshNames).1 s hs
      ⟨r.2.1, r.2.2.1⟩⟩

/-! ## Exit status -/

theorem quad_run_created_device (o : Outcome) (fuel : Nat) (hi : o.glfwInit = true)
    (hw : o.window = true) : (Quad.run o fuel).2.calls.any Call.isDevice = true := by
  obtain ⟨n, tail, _, h⟩ := quad_run_created o fuel
  rw [h o hi hw rfl, List.any_eq_true]
  exact ⟨.glViewport 0 0 1280 720, by simp [Quad.setupCalls], rfl⟩

theorem triangle_run_created_device (o : Outcome) (fuel : Nat) (hi : o.glfwInit = true)
    (hw : o.window = true) : (Triangle.run o fuel).2.calls.any Call.isDevice = true := by
  obtain ⟨n, tail, _, h⟩ := triangle_run_created o fuel
  rw [h o hi hw rfl, List.any_eq_true]
  exact ⟨.glViewport 0 0 1280 720, by simp [Triangle.setupCalls], rfl⟩

/-- The ways a run of the quadrilateral program ends. -/
theorem quad_exit_cases (o : Outcome) (fuel : Nat) :
    (o.glfwInit = false ∧ Quad.exit o fuel = .returned (-1)) ∨
    (o.glfwInit = true ∧ o.window = false ∧ Quad.exit o fuel = .returned (-1)) ∨
    (o.glfwInit = true ∧ o.window = true ∧ o.gladLoadGLLoader = false ∧
      Quad.exit o fuel = .undefined) ∨
    (o.glfwInit = true ∧ o.window = true ∧ o.gladLoadGLLoader = true ∧
      (∃ n, n < fuel ∧ FirstCloseAt o n) ∧ Quad.exit o fuel = .returned 0) ∨
    (o.glfwInit = true ∧ o.window = true ∧ o.gladLoadGLLoader = true ∧
      (∀ j, j < fuel → o.shouldClose j = false) ∧ Quad.exit o fuel = .running) := by
  rcases quad_run_cases o fuel with ⟨hi, h⟩ | ⟨hi, hw, h⟩ | ⟨hi, hw, n, hn, hc, h⟩ |
    ⟨hi, hw, ho, h⟩
  · left
    refine ⟨hi, ?_⟩
    simp [Quad.exit, exitOf, undefinedBehaviour, h, Call.isDevice]
  · right; left
    refine ⟨hi, hw, ?_⟩
    have hd : (Quad.bootstrapCalls ++ [Call.glfwTerminate]).any Call.isDevice = false := by
      simp [Quad.bootstrapCalls, Quad.hintCalls, Call.isDevice]
    simp [Quad.exit, exitOf, undefinedBehaviour, h, hd]
  · have hd := quad_run_created_device o fuel hi hw
    cases hg : o.gladLoadGLLoader
    · right; right; left
      refine ⟨hi, hw, rfl, ?_⟩
      simp [Quad.exit, exitOf, undefinedBehaviour, hg, hd]
    · right; right; right; left
      refine ⟨hi, hw, rfl, ⟨n, hn, hc⟩, ?_⟩
      simp [Quad.exit, exitOf, undefinedBehaviour, hg, h]
  · have hd := quad_run_created_device o fuel hi hw
    cases hg : o.gladLoadGLLoader
    · right; right; left
      refine ⟨hi, hw, rfl, ?_⟩
      simp [Quad.exit, exitOf, undefinedBehaviour, hg, hd]
    · right; right; right; right
      refine ⟨hi, hw, rfl, ho, ?_⟩
      simp [Quad.exit, exitOf, undefinedBehaviour, hg, h]

/-- The ways a run of the triangle program ends. -/
theorem triangle_exit_cases (o : Outcome) (fuel : Nat) :
    (o.glfwInit = false ∧ Triangle.exit o fuel = .returned (-1)) ∨
    (o.glfwInit = true ∧ o.window = false ∧ Triangle.exit o fuel = .returned (-1)) ∨
    (o.glfwInit = true ∧ o.window = true ∧ o.gladLoadGLLoader = false ∧
      Triangle.exit o fuel = .undefined) ∨
    (o.glfwInit = true ∧ o.window = true ∧ o.gladLoadGLLoader = true ∧
      (∃ n, n < fuel ∧ FirstCloseAt o n) ∧ Triangle.exit o fuel = .returned 0) ∨
    (o.glfwInit = true ∧ o.window = true ∧ o.gladLoadGLLoader = true ∧
      (∀ j, j < fuel → o.shouldClose j = false) ∧ Triangle.exit o fuel = .running) := by
  rcases triangle_run_cases o fuel with ⟨hi, h⟩ | ⟨hi, hw, h⟩ | ⟨hi, hw, n, hn, hc, h⟩ |
    ⟨hi, hw, ho, h⟩
  · left
    refine ⟨hi, ?_⟩
    simp [Triangle.exit, exitOf, undefinedBehaviour, h, Call.isDevice]
  · right; left
    refine ⟨hi, hw, ?_⟩
    have hd : (Triangle.bootstrapCalls ++ [Call.glfwTerminate]).any Call.isDevice = false := by
      simp [Triangle.bootstrapCalls, Triangle.hintCalls, Call.isDevice]
    simp [Triangle.exit, exitOf, undefinedBehaviour, h, hd]
  · have hd := triangle_run_created_device o fuel hi hw
    cases hg : o.gladLoadGLLoader
    · right; right; left
      refine ⟨hi, hw, rfl, ?_⟩
      simp [Triangle.exit, exitOf, undefinedBehaviour, hg, hd]
    · right; right; right; left
      refine ⟨hi, hw, rfl, ⟨n, hn, hc⟩, ?_⟩
      simp [Triangle.exit, exitOf, undefinedBehaviour, hg, h]
  · have hd := triangle_run_created_device o fuel hi hw
    cases hg : o.gladLoadGLLoader
    · right; right; left
      refine ⟨hi, hw, rfl, ?_⟩
      simp [Triangle.exit, exitOf, undefinedBehaviour, hg, hd]
    · right; right; right; right
      refine ⟨hi, hw, rfl, ho, ?_⟩
      simp [Triangle.exit, exitOf, undefinedBehaviour, hg, h]

/-- The close flag is first observed at one query at most. -/
theorem firstCloseAt_unique (o : Outcome) (n m : Nat) (hn : FirstCloseAt o n)
    (hm : FirstCloseAt o m) : n = m := by
  rcases Nat.lt_trichotomy n m with h | h | h
  · have := hm.1 n h
    rw [hn.2] at this
    cases this
  · exact h
  · have := hn.1 m h
    rw [hm.2] at this
    cases this

/-- Counterexample for C4 as stated: with glfwInit and window creation succeeding, a
run in which the function loader fails goes on to call glViewport, a graphics-device
function, through a pointer that was never loaded, so it does not end by returning 0;
and a run whose window is never closed does not return, whatever the fuel. -/
theorem main_need_not_return_zero :
    (loaderFailOutcome.glfwInit = true ∧ loaderFailOutcome.window = true ∧
      loaderFailOutcome.gladLoadGLLoader = false ∧
      FirstCloseAt loaderFailOutcome 2 ∧
      .glViewport 0 0 1280 720 ∈ (Quad.run loaderFailOutcome 3).2.calls ∧
      .glViewport 0 0 1280 720 ∈ (Triangle.run loaderFailOutcome 3).2.calls ∧
      (Call.glViewport 0 0 1280 720).isDevice = true ∧
      ∀ fuel, Quad.exit loaderFailOutcome fuel = .undefined ∧
        Triangle.exit loaderFailOutcome fuel = .undefined ∧
        Quad.exit loaderFailOutcome fuel ≠ .returned 0 ∧
        Triangle.exit loaderFailOutcome fuel ≠ .returned 0) ∧
    (neverClosedOutcome.glfwInit = true ∧ neverClosedOutcome.window = true ∧
      neverClosedOutcome.gladLoadGLLoader = true ∧
      ∀ fuel, Quad.exit neverClosedOutcome fuel = .running ∧
        Triangle.exit neverClosedOutcome fuel = .running ∧
        Quad.exit neverClosedOutcome fuel ≠ .returned 0 ∧
        Triangle.exit neverClosedOutcome fuel ≠ .returned 0) := by
  have hq : ∀ fuel, Quad.exit loaderFailOutcome fuel = .undefined := by
    intro fuel
    rcases quad_exit_cases loaderFailOutcome fuel with ⟨h, _⟩ | ⟨_, h, _⟩ | ⟨_, _, _, h⟩ |
      ⟨_, _, h, _⟩ | ⟨_, _, h, _⟩
    · cases h
    · cases h
    · exact h
    · cases h
    · cases h
  have ht : ∀ fuel, Triangle.exit loaderFailOutcome fuel = .undefined := by
    intro fuel
    rcases triangle_exit_cases loaderFailOutcome fuel with ⟨h, _⟩ | ⟨_, h, _⟩ |
      ⟨_, _, _, h⟩ | ⟨_, _, h, _⟩ | ⟨_, _, h, _⟩
    · cases h
    · cases h
    · exact h
    · cases h
    · cases h
  have hnq : ∀ fuel, Quad.exit neverClosedOutcome fuel = .running := by
    intro fuel
    rcases quad_exit_cases neverClosedOutcome fuel with ⟨h, _⟩ | ⟨_, h, _⟩ | ⟨_, _, h, _⟩ |
      ⟨_, _, _, ⟨n, _, hc⟩, _⟩ | ⟨_, _, _, _, h⟩
    · cases h
    · cases h
    · cases h
    · cases hc.2
    · exact h
  have hnt : ∀ fuel, Triangle.exit neverClosedOutcome fuel = .running := by
    intro fuel
    rcases triangle_exit_cases neverClosedOutcome fuel with ⟨h, _⟩ | ⟨_, h, _⟩ |
      ⟨_, _, h, _⟩ | ⟨_, _, _, ⟨n, _, hc⟩, _⟩ | ⟨_, _, _, _, h⟩
    · cases h
    · cases h
    · cases h
    · cases hc.2
    · exact h
  refine ⟨⟨rfl, rfl, rfl, sampleOutcome_firstClose, ?_, ?_, rfl, fun fuel =>
      ⟨hq fuel, ht fuel, by rw [hq fuel]; exact fun h => Exit.noConfusion h,
        by rw [ht fuel]; exact fun h => Exit.noConfusion h⟩⟩,
    ⟨rfl, rfl, rfl, fun fuel =>
      ⟨hnq fuel, hnt fuel, by rw [hnq fuel]; exact fun h => Exit.noConfusion h,
        by rw [hnt fuel]; exact fun h => Exit.noConfusion h⟩⟩⟩
  · rw [quad_run_closed loaderFailOutcome 3 2 rfl rfl sampleOutcome_firstClose (by decide)]
    simp [Quad.setupCalls]
  · rw [triangle_run_closed loaderFailOutcome 3 2 rfl rfl sampleOutcome_firstClose (by decide)]
    simp [Triangle.setupCalls]

/-- C4 (amended): for every outcome and every fuel, in each program: the run ends by
returning -1 exactly when glfwInit or glfwCreateWindow failed; a run that returns,
returns -1 or 0; when both succeeded, the function loader succeeded and the close flag
is first observed within the fuel, the run returns 0, whatever the shader stages
answered; and when window creation failed the last call is glfwTerminate and no call
of the run is a graphics-device call. -/
theorem exit_status_of_main (o : Outcome) (fuel : Nat) :
    ((Quad.exit o fuel = .returned (-1) ↔ (o.glfwInit = false ∨ o.window = false)) ∧
      (∀ r, Quad.exit o fuel = .returned r → r = -1 ∨ r = 0) ∧
      (o.glfwInit = true → o.window = true → o.gladLoadGLLoader = true →
        ∀ n, FirstCloseAt o n → n < fuel → Quad.exit o fuel = .returned 0) ∧
      (o.glfwInit = true → o.window = false →
        (Quad.run o fuel).2.calls.getLast? = some .glfwTerminate ∧
        ∀ c, c ∈ (Quad.run o fuel).2.calls → c.isDevice = false)) ∧
    ((Triangle.exit o fuel = .returned (-1) ↔ (o.glfwInit = false ∨ o.window = false)) ∧
      (∀ r, Triangle.exit o fuel = .returned r → r = -1 ∨ r = 0) ∧
      (o.glfwInit = true → o.window = true → o.gladLoadGLLoader = true →
        ∀ n, FirstCloseAt o n → n < fuel → Triangle.exit o fuel = .returned 0) ∧
      (o.glfwInit = true → o.window = false →
        (Triangle.run o fuel).2.calls.getLast? = some .glfwTerminate ∧
        ∀ c, c ∈ (Triangle.run o fuel).2.calls → c.isDevice = false)) := by
  constructor
  · refine ⟨?_, ?_, ?_, ?_⟩
    · rcases quad_exit_cases o fuel with ⟨hi, h⟩ | ⟨hi, hw, h⟩ | ⟨hi, hw, _, h⟩ |
        ⟨hi, hw, _, _, h⟩ | ⟨hi, hw, _, _, h⟩
      · simp [h, hi]
      · simp [h, hi, hw]
      · simp [h, hi, hw]
      · simp [h, hi, hw]
      · simp [h, hi, hw]
    · intro r hr
      rcases quad_exit_cases o fuel with ⟨_, h⟩ | ⟨_, _, h⟩ | ⟨_, _, _, h⟩ |
        ⟨_, _, _, _, h⟩ | ⟨_, _, _, _, h⟩ <;> rw [h] at hr <;> cases hr <;> simp
    · intro hi hw hg n hc hf
      rcases quad_exit_cases o fuel with ⟨h, _⟩ | ⟨_, h, _⟩ | ⟨_, _, h, _⟩ |
        ⟨_, _, _, _, h⟩ | ⟨_, _, _, ho, _⟩
      · rw [hi] at h; cases h
      · rw [hw] at h; cases h
      · rw [hg] at h; cases h
      · exact h
      · have := ho n hf
        rw [hc.2] at this
        cases this
    · intro hi hw
      rw [quad_run_window_failed o fuel hi hw]
      exact ⟨by simp, quad_noDevice_bootstrap⟩
  · refine ⟨?_, ?_, ?_, ?_⟩
    · rcases triangle_exit_cases o fuel with ⟨hi, h⟩ | ⟨hi, hw, h⟩ | ⟨hi, hw, _, h⟩ |
        ⟨hi, hw, _, _, h⟩ | ⟨hi, hw, _, _, h⟩
      · simp [h, hi]
      · simp [h, hi, hw]
      · simp [h, hi, hw]
      · simp [h, hi, hw]
      · simp [h, hi, hw]
    · intro r hr
      rcases triangle_exit_cases o fuel with ⟨_, h⟩ | ⟨_, _, h⟩ | ⟨_, _, _, h⟩ |
        ⟨_, _, _, _, h⟩ | ⟨_, _, _, _, h⟩ <;> rw [h] at hr <;> cases hr <;> simp
    · intro hi hw hg n hc hf
      rcases triangle_exit_cases o fuel with ⟨h, _⟩ | ⟨_, h, _⟩ | ⟨_, _, h, _⟩ |
        ⟨_, _, _, _, h⟩ | ⟨_, _, _, ho, _⟩
      · rw [hi] at h; cases h
      · rw [hw] at h; cases h
      · rw [hg] at h; cases h
      · exact h
      · have := ho n hf
        rw [hc.2] at this
        cases this
    · intro hi hw
      rw [triangle_run_window_failed o fuel hi hw]
      exact ⟨by simp, triangle_noDevice_bootstrap⟩

/-- Witness for C4 (amended): with the vertex shader failing to compile, the loader
succeeding and the window closed at query 2, both programs return 0 within fuel 3. -/
theorem exit_status_of_main_at_sample :
    vertexFailOutcome.vertex_success = false ∧ FirstCloseAt vertexFailOutcome 2 ∧
    Quad.exit vertexFailOutcome 3 = .returned 0 ∧
    Triangle.exit vertexFailOutcome 3 = .returned 0 :=
  ⟨rfl, sampleOutcome_firstClose,
    (exit_status_of_main vertexFailOutcome 3).1.2.2.1 rfl rfl rfl 2 sampleOutcome_firstClose
      (by decide),
    (exit_status_of_main vertexFailOutcome 3).2.2.2.1 rfl rfl rfl 2 sampleOutcome_firstClose
      (by decide)⟩
